import Mathlib

/-!
Shallow embedding of the `confidential_verifier` package (Phala-Network/
private-ai-verifier) and proofs about the behaviour its specification
describes.  Python `bytes` values are modelled as `List Byte` with
`Byte := Fin 256`; Python strings as Lean `String` (processed through
`String.data`); Python `None`/falsy-handling as `Option` plus explicit
truthiness helpers; network calls (DCAP, dstack-verifier, NRAS, Sigstore,
Redpill catalog, PRPC) as oracle values supplied to the verifier
functions, over which all theorems quantify.  A Python function that can
raise is embedded with `Except String` (the raised exception's `str`);
`try/except` blocks become the corresponding branch merges.
-/

namespace PAIV

abbrev Byte := Fin 256

/-- One hex digit, lower case, as produced by Python `bytes.hex()`:
`0`-`9` then `a`-`f`. -/
def nibbleChar (n : Nat) : Char :=
  if n < 10 then Char.ofNat (48 + n)
  else if n < 16 then Char.ofNat (87 + n)
  else '?'

/-- Value of one hex digit as accepted by Python `bytes.fromhex`:
`0`-`9`, `a`-`f` and `A`-`F`. -/
def nibbleVal (c : Char) : Option (Fin 16) :=
  let n := c.toNat
  if h : 48 ≤ n ∧ n ≤ 57 then some ⟨n - 48, by omega⟩
  else if h : 97 ≤ n ∧ n ≤ 102 then some ⟨n - 87, by omega⟩
  else if h : 65 ≤ n ∧ n ≤ 70 then some ⟨n - 55, by omega⟩
  else none

/-- `bytes.hex()`: two lower-case hex digits per byte. -/
def hexChars : List Byte → List Char
  | [] => []
  | b :: bs => nibbleChar (b.val / 16) :: nibbleChar (b.val % 16) :: hexChars bs

def bytesToHex (bs : List Byte) : String := String.mk (hexChars bs)

/-- `bytes.fromhex` on the character list: an even number of hex digits,
decoded pairwise.  (CPython additionally skips ASCII whitespace between
byte pairs; no code in this repository relies on that and it is not
modelled.)  `none` is the `ValueError` branch. -/
def fromhexChars : List Char → Option (List Byte)
  | [] => some []
  | [_] => none
  | c₁ :: c₂ :: cs =>
    match nibbleVal c₁, nibbleVal c₂ with
    | some hi, some lo =>
      match fromhexChars cs with
      | some bs => some (⟨hi.val * 16 + lo.val, by omega⟩ :: bs)
      | none => none
    | _, _ => none

def fromhex (s : String) : Option (List Byte) := fromhexChars s.data

/-- Python `s[a:b]` on bytes: drop `a`, take `b - a`. -/
def slice (bs : List Byte) (a b : Nat) : List Byte := (bs.drop a).take (b - a)

/-! ### `verify_report_data` (src/confidential_verifier/verifiers/dstack.py) -/

/-- The dictionary returned by `verify_report_data`: `valid` is always
present; `address_match`/`nonce_match` only on the path that computed
them; `error` on the two failure paths. -/
structure RdCheck where
  valid : Bool
  address_match : Option Bool := none
  nonce_match : Option Bool := none
  error : Option String := none
deriving DecidableEq, Repr

/-- Stand-in for `str(e)` of the `ValueError` raised by `bytes.fromhex`
on malformed input (the exact CPython message also reports a position;
no caller inspects it). -/
def fromhexErrMsg : String := "non-hexadecimal number found in fromhex() arg"

/-- Python `str.startswith("0x")`. -/
def startsWith0x (s : String) : Bool :=
  match s.data with
  | '0' :: 'x' :: _ => true
  | _ => false

/-- Strip a leading `"0x"`, as in `signing_address[2:]`. -/
def strip0x (s : String) : String :=
  if startsWith0x s then String.mk (s.data.drop 2) else s

/-- `bytes.ljust(32, b"\x00")`: right-pad with zero bytes up to 32;
longer inputs are returned unchanged. -/
def ljust32 (bs : List Byte) : List Byte :=
  bs ++ List.replicate (32 - bs.length) (0 : Byte)

/-- `verify_report_data(tdx_report_data_hex, signing_address,
request_nonce)`.  Every failing `bytes.fromhex` call raises inside the
function's `try`, landing in the `except` branch that returns
`{"valid": False, "error": str(e)}`. -/
def verify_report_data (tdx_report_data_hex signing_address request_nonce : String) :
    RdCheck :=
  match fromhex tdx_report_data_hex with
  | none => { valid := false, error := some fromhexErrMsg }
  | some report_data =>
    if report_data.length ≠ 64 then
      { valid := false
        error := some ("Invalid report_data length: " ++ toString report_data.length) }
    else
      let embedded_address_bytes := report_data.take 32
      let embedded_nonce_bytes := report_data.drop 32
      let addr := strip0x signing_address
      match fromhex addr with
      | none => { valid := false, error := some fromhexErrMsg }
      | some signing_address_bytes =>
        let expected_address_bytes := ljust32 signing_address_bytes
        let address_match := embedded_address_bytes == expected_address_bytes
        match fromhex request_nonce with
        | none => { valid := false, error := some fromhexErrMsg }
        | some expected_nonce_bytes =>
          let nonce_match := embedded_nonce_bytes == expected_nonce_bytes
          { valid := address_match && nonce_match
            address_match := some address_match
            nonce_match := some nonce_match }

/-! ### `IntelTdxVerifier._manual_parse_tdx`
(src/confidential_verifier/verifiers/intel.py) -/

/-- The field dictionary built by `_manual_parse_tdx`; every value is a
lower-case hex string of the corresponding body slice. -/
structure TdxFields where
  tee_tcb_svn : String
  mr_seam : String
  mr_signer_seam : String
  seam_attributes : String
  td_attributes : String
  xfam : String
  mr_td : String
  mr_config_id : String
  mr_owner : String
  mr_owner_config : String
  rt_mr0 : String
  rt_mr1 : String
  rt_mr2 : String
  rt_mr3 : String
  report_data : String
  registers : List String
deriving DecidableEq, Repr

/-- The field dictionary `_manual_parse_tdx` builds for actual byte
input: fixed slices of the 584-byte body, hex-encoded.  Python slicing
truncates out-of-range bounds, so short input yields short (possibly
empty) field strings rather than an error. -/
def parsedFields (quote_bytes : List Byte) : TdxFields :=
    -- Header is 48 bytes. Body starts at 48.
    let body := slice quote_bytes 48 (48 + 584)
    { tee_tcb_svn := bytesToHex (slice body 0 16)
      mr_seam := bytesToHex (slice body 16 64)
      mr_signer_seam := bytesToHex (slice body 64 112)
      seam_attributes := bytesToHex (slice body 112 120)
      td_attributes := bytesToHex (slice body 120 128)
      xfam := bytesToHex (slice body 128 136)
      mr_td := bytesToHex (slice body 136 184)
      mr_config_id := bytesToHex (slice body 184 232)
      mr_owner := bytesToHex (slice body 232 280)
      mr_owner_config := bytesToHex (slice body 280 328)
      rt_mr0 := bytesToHex (slice body 328 376)
      rt_mr1 := bytesToHex (slice body 376 424)
      rt_mr2 := bytesToHex (slice body 424 472)
      rt_mr3 := bytesToHex (slice body 472 520)
      report_data := bytesToHex (slice body 520 584)
      registers :=
        [bytesToHex (slice body 136 184), bytesToHex (slice body 328 376),
         bytesToHex (slice body 376 424), bytesToHex (slice body 424 472),
         bytesToHex (slice body 472 520)] }

/-- `_manual_parse_tdx(quote_bytes)`.  The argument is `Option` because
`TinfoilTdxVerifier`/the DCAP-failure path can reach it with
`quote_bytes = None` (a dict input whose `quote` key is `None`): slicing
`None` raises `TypeError`, the function's own `except` catches it and
returns the empty dict, modelled as `none`.  For actual byte input no
operation in the body can raise, so the result is always `some` field
dict. -/
def manual_parse_tdx : Option (List Byte) → Option TdxFields
  | none => none
  | some quote_bytes => some (parsedFields quote_bytes)

/-! ### Dynamic values and Python truthiness -/

/-- JSON-like dynamic value, standing in for Python's untyped dicts where
the code stores or forwards structured data it does not inspect. -/
inductive JV where
  | s : String → JV
  | b : Bool → JV
  | n : Int → JV
  | arr : List JV → JV
  | obj : List (String × JV) → JV
  | null : JV

/-- Python truthiness of a dynamic value
(`None`, `False`, `0`, `""`, `[]`, `{}` are falsy). -/
def jvTruthy : JV → Bool
  | .s s => s ≠ ""
  | .b b => b
  | .n n => n ≠ 0
  | .arr l => !l.isEmpty
  | .obj l => !l.isEmpty
  | .null => false

/-- Truthiness of an optional dynamic value (Python variable that may be
`None`). -/
def optJVTruthy : Option JV → Bool
  | some j => jvTruthy j
  | none => false

/-- Truthiness normalisation for an optional string: `None` and `""` are
falsy. -/
def pyStr : Option String → Option String
  | some "" => none
  | o => o

/-- Python `str.lower()` (character-wise, as applied to hex nonces,
hash digests and provider tags). -/
def pyLower (s : String) : String := String.mk (s.data.map Char.toLower)

/-- Python `f"{x}"` for an optional string: `None` prints as `"None"`. -/
def pyNoneStr : Option String → String
  | some s => s
  | none => "None"

/-- Python dict lookup `d.get(k)`. -/
def dictGet (d : List (String × JV)) (k : String) : Option JV :=
  (d.find? (fun p => p.1 == k)).map (·.2)

/-- Python dict assignment `d[k] = v`: replace in place if the key
exists, otherwise append (insertion order preserved). -/
def dictSet (d : List (String × JV)) (k : String) (v : JV) : List (String × JV) :=
  if (d.find? (fun p => p.1 == k)).isSome then
    d.map (fun p => if p.1 == k then (k, v) else p)
  else
    d ++ [(k, v)]

/-- Python `del d[k]`. -/
def dictDel (d : List (String × JV)) (k : String) : List (String × JV) :=
  d.filter (fun p => p.1 ≠ k)

/-! ### `VerificationResult` (src/confidential_verifier/types.py) -/

/-- `VerificationResult`.  `types.py` declares `provider: str` without a
default, but several verifiers (`PhalaCloudVerifier`, `RedpillVerifier`)
construct results without passing it; it is therefore modelled as an
optional field so those constructions denote.  `timestamp` is
`time.time()` at construction; no claim concerns it, so it is fixed
at `0`. -/
structure VerificationResult where
  model_verified : Bool
  provider : Option String := none
  timestamp : Nat := 0
  hardware_type : List String
  model_id : Option String := none
  request_nonce : Option String := none
  signing_address : Option String := none
  claims : List (String × JV) := []
  error : Option String := none
  raw : Option JV := none

/-! ### `IntelTdxVerifier` (src/confidential_verifier/verifiers/intel.py) -/

/-- What `dcap_qvl.get_collateral_and_verify` returned (status plus
`advisory_ids`; the call is network I/O, supplied as an oracle value,
`.error` being the `str` of a raised exception). -/
structure DcapOut where
  status : String
  advisory_ids : List String := []

def SUCCESS_STATUSES : List String :=
  ["UpToDate", "SWHardeningNeeded", "ConfigurationNeeded",
   "ConfigurationAndSWHardeningNeeded"]

/-- `IntelTdxVerifier._format_result`. -/
def format_result (result : DcapOut) : VerificationResult :=
  let is_success := SUCCESS_STATUSES.contains result.status
  let claims : List (String × JV) :=
    [("status", JV.s result.status),
     ("advisory_ids", JV.arr (result.advisory_ids.map JV.s))]
  if is_success then
    { model_verified := true
      provider := some "intel"
      hardware_type := ["INTEL_TDX"]
      claims := claims }
  else
    { model_verified := false
      provider := some "intel"
      hardware_type := ["INTEL_TDX"]
      claims := claims
      error := some ("Verification failed with status: " ++ result.status) }

/-- The `quote` argument of `IntelTdxVerifier.verify` /
`TinfoilTdxVerifier.verify`: hex string, bytes, dict, or anything else.
In the dict form the `quote` entry is an optional hex string (call sites
pass either a hex string or `None`); the remaining entries are the
metadata keys the verifiers read. -/
inductive QuoteInput where
  | hexS (s : String)
  | bytesQ (b : List Byte)
  | dictQ (quote : Option String)
      (model_id repo request_nonce signing_address : Option String)
  | otherQ

/-- Input normalisation shared by `IntelTdxVerifier.verify` and
`TinfoilTdxVerifier.verify` (it happens before their `try` blocks, so a
failure is a raised `ValueError`):  a hex string is decoded
(`bytes.fromhex` raises on malformed input), bytes pass through, a
dict's `quote` entry is decoded when it is a string and passed through
unchanged when it is `None`, anything else raises
`ValueError("Quote must be hex string, bytes, or dict")`.  The result
`some none` is Python `quote_bytes = None`. -/
def normalizeQuote : QuoteInput → Except String (Option (List Byte))
  | .hexS s =>
    match fromhex s with
    | some b => .ok (some b)
    | none => .error fromhexErrMsg
  | .bytesQ b => .ok (some b)
  | .dictQ oq _ _ _ _ =>
    match oq with
    | some s =>
      match fromhex s with
      | some b => .ok (some b)
      | none => .error fromhexErrMsg
    | none => .ok none
  | .otherQ => .error "Quote must be hex string, bytes, or dict"

/-- The field dictionary of `_manual_parse_tdx` as stored into `claims`
on the DCAP-failure path. -/
def fieldsToClaims (f : TdxFields) : List (String × JV) :=
  [("tee_tcb_svn", JV.s f.tee_tcb_svn), ("mr_seam", JV.s f.mr_seam),
   ("mr_signer_seam", JV.s f.mr_signer_seam),
   ("seam_attributes", JV.s f.seam_attributes),
   ("td_attributes", JV.s f.td_attributes), ("xfam", JV.s f.xfam),
   ("mr_td", JV.s f.mr_td), ("mr_config_id", JV.s f.mr_config_id),
   ("mr_owner", JV.s f.mr_owner), ("mr_owner_config", JV.s f.mr_owner_config),
   ("rt_mr0", JV.s f.rt_mr0), ("rt_mr1", JV.s f.rt_mr1),
   ("rt_mr2", JV.s f.rt_mr2), ("rt_mr3", JV.s f.rt_mr3),
   ("report_data", JV.s f.report_data),
   ("registers", JV.arr (f.registers.map JV.s))]

/-- The successful-DCAP tail of `IntelTdxVerifier.verify`: the
formatted result decorated with `model_id`, `repo` and the optional
ITA claims. -/
def intel_success_post (model_id repo : Option String) (ita : Option JV)
    (result : DcapOut) : VerificationResult :=
  let res := format_result result
  let res := match pyStr model_id with
    | some _ => { res with model_id := model_id }
    | none => res
  let res := match pyStr repo with
    | some r => { res with claims := dictSet res.claims "repo" (JV.s r) }
    | none => res
  match ita with
  | some j =>
    if jvTruthy j then
      { res with claims := dictSet res.claims "intel_trust_authority" j }
    else res
  | none => res

/-- The DCAP-failure tail of `IntelTdxVerifier.verify`: best-effort
manual parse for registers, `status = "Error"`, and the DCAP error
string. -/
def intel_fail_result (quote_bytes : Option (List Byte))
    (model_id repo : Option String) (ita : Option JV) (e : String) :
    VerificationResult :=
  let claims := match manual_parse_tdx quote_bytes with
    | some f => fieldsToClaims f
    | none => []
  let claims := match pyStr repo with
    | some r => dictSet claims "repo" (JV.s r)
    | none => claims
  let claims := dictSet claims "status" (JV.s "Error")
  let claims := match ita with
    | some j =>
      if jvTruthy j then dictSet claims "intel_trust_authority" j else claims
    | none => claims
  { model_verified := false
    provider := some "intel"
    hardware_type := ["INTEL_TDX"]
    model_id := model_id
    claims := claims
    error := some ("Verification failed: " ++ e) }

/-- `IntelTdxVerifier.verify`.  `dcap` is the outcome of the awaited
`dcap_qvl.get_collateral_and_verify` call (`.error e` when it raised
with `str(e) = e`); `ita` is the outcome of the optional
Intel Trust Authority appraisal (`none` when no API key is configured
or the appraisal failed — those failures are silent). -/
def intel_verify (q : QuoteInput) (dcap : Except String DcapOut)
    (ita : Option JV) : Except String VerificationResult :=
  let model_id := match q with | .dictQ _ m _ _ _ => m | _ => none
  let repo := match q with | .dictQ _ _ r _ _ => r | _ => none
  match normalizeQuote q with
  | .error e => .error e
  | .ok quote_bytes =>
    match dcap with
    | .ok result => .ok (intel_success_post model_id repo ita result)
    | .error e => .ok (intel_fail_result quote_bytes model_id repo ita e)

/-! ### `TinfoilTdxVerifier` (src/confidential_verifier/verifiers/tinfoil.py) -/

/-- Accepted MR_SEAM values (TDX Module hash) for Tinfoil's environment. -/
def ACCEPTED_MR_SEAMS : List String :=
  ["49b66faa451d19ebbdbe89371b8daf2b65aa3984ec90110343e9e2eec116af08850fa20e3b1aa9a874d77a65380ee7e6",
   "685f891ea5c20e8fa27b151bf34bf3b50fbaf7143cc53662727cbdb167c0ad8385f1f6f3571539a91e104a1c96d75e04"]

def EXPECTED_TD_ATTRIBUTES : String := "0000001000000000"

def EXPECTED_XFAM : String := "e702060000000000"

/-- `"00" * 48`. -/
def ZERO_48 : String := String.mk (List.replicate 96 '0')

def RTMR3_ZERO : String := String.mk (List.replicate 96 '0')

/-- `claims.get(key, "")` over the (possibly empty) manual-parse dict. -/
def fget (f : Option TdxFields) (sel : TdxFields → String) : String :=
  match f with
  | some t => sel t
  | none => ""

/-- `claims.get(key)` (no default) over the manual-parse dict. -/
def fgetOpt (f : Option TdxFields) (sel : TdxFields → String) : Option String :=
  f.map sel

/-- `TinfoilTdxVerifier._check_hardware_policy`: the list of reasons it
appends.  The `TdAttributes`/`Xfam` messages format
`claims.get(...)` without a default, so a missing key prints `None`. -/
def check_hardware_policy (claims : Option TdxFields) : List String :=
  (if ACCEPTED_MR_SEAMS.contains (fget claims (·.mr_seam)) then []
   else ["Invalid MrSeam: " ++ fget claims (·.mr_seam)]) ++
  (if fget claims (·.td_attributes) == EXPECTED_TD_ATTRIBUTES then []
   else ["Invalid TdAttributes: " ++ pyNoneStr (fgetOpt claims (·.td_attributes))]) ++
  (if fget claims (·.xfam) == EXPECTED_XFAM then []
   else ["Invalid Xfam: " ++ pyNoneStr (fgetOpt claims (·.xfam))]) ++
  (if fget claims (·.mr_owner) == ZERO_48 then []
   else ["mr_owner is not zero"]) ++
  (if fget claims (·.mr_owner_config) == ZERO_48 then []
   else ["mr_owner_config is not zero"]) ++
  (let rtmr3 := fget claims (·.rt_mr3)
   -- RTMR3 must be zero (`if rtmr3 and rtmr3 != RTMR3_ZERO`)
   if rtmr3 ≠ "" ∧ rtmr3 ≠ RTMR3_ZERO then ["RTMR3 is not zeroed"] else [])

/-- Golden image measurements as extracted from the Sigstore bundle for
the repo (`_fetch_golden_measurements`); a fetch/predicate failure
yields the empty dict, i.e. both entries `none`. -/
structure GoldenImage where
  rtmr1 : Option String := none
  rtmr2 : Option String := none

/-- Hardware profiles from `tinfoilsh/hardware-measurements`
(`_fetch_hardware_measurements`): profile name with its `mrtd` and
`rtmr0` entries. -/
abbrev HwProfiles := List (String × Option String × Option String)

/-- `str(e)` of the `TypeError` raised by `actual_mrtd[:8]` when the
manual parse produced no fields (`claims.get("mr_td")` is `None`). -/
def noneSubscriptMsg : String := "'NoneType' object is not subscriptable"

/-- `TinfoilTdxVerifier._check_manifest_policy`.  Returns the reasons
appended to the caller's list before any raise, the `hw_profile` name
recorded into the claims dict, and the `str` of a raised exception
(`none` when the body ran to completion).  The raise can only come from
the `actual_mrtd[:8]` / `actual_rtmr0[:8]` slicing in the
no-profile-found message when either value is `None`. -/
def check_manifest_policy (claims : Option TdxFields) (golden : GoldenImage)
    (profiles : HwProfiles) : List String × Option String × Option String :=
  let actual_rtmr1 := fgetOpt claims (·.rt_mr1)
  let actual_rtmr2 := fgetOpt claims (·.rt_mr2)
  let rs1 :=
    if golden.rtmr1 ≠ actual_rtmr1 then
      ["RTMR1 mismatch: expected " ++ pyNoneStr golden.rtmr1 ++ ", got " ++
        pyNoneStr actual_rtmr1]
    else []
  let rs2 :=
    if golden.rtmr2 ≠ actual_rtmr2 then
      ["RTMR2 mismatch: expected " ++ pyNoneStr golden.rtmr2 ++ ", got " ++
        pyNoneStr actual_rtmr2]
    else []
  let actual_mrtd := fgetOpt claims (·.mr_td)
  let actual_rtmr0 := fgetOpt claims (·.rt_mr0)
  match profiles.find? (fun p => p.2.1 == actual_mrtd && p.2.2 == actual_rtmr0) with
  | some p => (rs1 ++ rs2, some p.1, none)
  | none =>
    match actual_mrtd, actual_rtmr0 with
    | some m, some r =>
      (rs1 ++ rs2 ++
        ["No matching hardware profile found for MRTD=" ++ m.take 8 ++
          "... RTMR0=" ++ r.take 8 ++ "..."],
       none, none)
    | _, _ => (rs1 ++ rs2, none, some noneSubscriptMsg)

/-- The Sigstore-driven oracle data for one Tinfoil verification,
together with the DCAP and ITA outcomes consumed by the base verifier. -/
structure TinOracles where
  dcap : Except String DcapOut := .error "collateral unavailable"
  ita : Option JV := none
  golden : GoldenImage := {}
  profiles : HwProfiles := []

/-- The pure tail of `TinfoilTdxVerifier.verify` after the awaited base
verification: re-tag the provider, run the hardware and manifest
policies, and flip the verdict when any reason was collected. -/
def tinfoil_policy_post (internal_claims : Option TdxFields)
    (result : VerificationResult) (repo : Option String) (oc : TinOracles) :
    VerificationResult :=
  let result := { result with provider := some "tinfoil" }
  let reasons := check_hardware_policy internal_claims
  let (reasons, result) :=
    match pyStr repo with
    | some r =>
      let (added, hw_profile, exc) :=
        check_manifest_policy internal_claims oc.golden oc.profiles
      match exc with
      | some e =>
        (reasons ++ added ++ ["Manifest check failed: " ++ e], result)
      | none =>
        let result := match hw_profile with
          | some p =>
            { result with claims := dictSet result.claims "hw_profile" (JV.s p) }
          | none => result
        (reasons ++ added,
         { result with claims := dictSet result.claims "repo" (JV.s r) })
    | none => (reasons, result)
  if reasons.isEmpty then
    result
  else
    { result with
      model_verified := false
      error := some ((match result.error with
                      | some e => e ++ "; "
                      | none => "") ++
                     "Policy violation: " ++ String.intercalate ", " reasons) }

/-- `TinfoilTdxVerifier.verify`.  The quote is normalised exactly as in
the base class (a malformed hex string raises before anything else);
`internal_claims` is the manual parse used for the policy checks;
`super().verify(quote)` is the base verifier on the same input and
oracles.  `internal_claims.get("repo")` is always `None` —
`_manual_parse_tdx` never produces a `repo` key — so the repo comes
from the dict input when there is one. -/
def tinfoil_verify (q : QuoteInput) (oc : TinOracles) :
    Except String VerificationResult :=
  match normalizeQuote q with
  | .error e => .error e
  | .ok quote_bytes =>
    let internal_claims := manual_parse_tdx quote_bytes
    match intel_verify q oc.dcap oc.ita with
    | .error e => .error e
    | .ok result =>
      let repo := match q with | .dictQ _ _ r _ _ => r | _ => none
      .ok (tinfoil_policy_post internal_claims result repo oc)

/-! ### dstack-verifier wire result and shared attestation shapes -/

/-- The JSON verdict of the external dstack-verifier service as consumed
through `DstackVerifier.verify` (which maps its own network exceptions
to `{"is_valid": False, "reason": str(e)}` — the oracle value covers
both outcomes).  `details` is the free-form `details` mapping. -/
structure DstackResult where
  is_valid : Bool := false
  reason : Option String := none
  report_data : Option String := none
  details : List (String × JV) := []

/-- `details.get("app_info", {}).get("compose_hash")`. -/
def dstackComposeHash (details : List (String × JV)) : Option String :=
  match dictGet details "app_info" with
  | some (JV.obj app_info) =>
    match dictGet app_info "compose_hash" with
    | some (JV.s h) => some h
    | _ => none
  | _ => none

/-- An `nvidia_payload` GPU evidence mapping; only its `nonce` entry is
ever read by this code base (the rest is forwarded opaquely to NRAS). -/
structure NvPayload where
  nonce : Option String := none

/-- `tcb_info` (parse-if-string normalisation absorbed by the typing). -/
structure TcbInfo where
  app_compose : Option String := none
  vm_config : Option String := none
  event_log : Option String := none

/-- The `info` mapping of a NearAI attestation half. -/
structure AttInfo where
  tcb_info : Option TcbInfo := none
  compose_hash : Option String := none
  vm_config : Option String := none

/-- One NearAI attestation half (`gateway_attestation` or an entry of
`model_attestations`).  `event_log` is modelled after the
json.dumps-if-not-string normalisation. -/
structure AttData where
  intel_quote : Option String := none
  event_log : Option String := none
  info : Option AttInfo := none
  signing_address : Option String := none
  nvidia_payload : Option NvPayload := none
  request_nonce : Option String := none

/-! ### `NearAICloudVerifier` (src/confidential_verifier/verifiers/nearai.py) -/

/-- External calls a NearAI verification makes: the dstack-verifier POST
per component, the NRAS attestation per GPU payload, and the optional
ITA appraisal outcome. -/
structure NearaiOracles where
  dstack : Option String → Option String → Option String → DstackResult
  gpu : NvPayload → VerificationResult
  ita : Option JV := none

/-- Result dict of `NearAICloudVerifier._verify_component`: `name`,
`is_valid`, the `details` sub-entries, and the accumulated `errors`.
With typed inputs no statement of the body can raise (the oracles are
total), so the `except` branch that would append `str(e)` is not
reachable and every `details` entry below reflects where the body
stores it. -/
structure NaCompResult where
  name : String
  is_valid : Bool
  dstack : DstackResult
  compose_verified : Bool
  report_data_check : Option RdCheck := none
  gpu : Option VerificationResult := none
  errors : List String

/-- `NearAICloudVerifier._verify_compose_hash`. -/
def na_verify_compose_hash (sha256hex : String → String)
    (app_compose : String) (expected_hash : String) : Bool :=
  if app_compose = "" then false
  else pyLower (sha256hex app_compose) == pyLower expected_hash

/-- `NearAICloudVerifier._verify_component`.  `sha256hex` is SHA-256
hex digest of a UTF-8 string, carried as an uninterpreted parameter
(no claim depends on its values). -/
def na_verify_component (sha256hex : String → String) (oc : NearaiOracles)
    (name : String) (att : AttData) (request_nonce : Option String) :
    NaCompResult :=
  let info := att.info.getD {}
  let tcb_info := info.tcb_info.getD {}
  let app_compose := tcb_info.app_compose
  -- `vm_config = info.get("vm_config")`, falling back to tcb_info when falsy
  let vm_config := match pyStr info.vm_config with
    | some v => some v
    | none => tcb_info.vm_config
  -- 1. Dstack Verification (Quote, Event Log, OS Image)
  let dstack_result := oc.dstack att.intel_quote att.event_log vm_config
  let is_valid_dstack := dstack_result.is_valid
  let errs₁ :=
    if is_valid_dstack then []
    else ["Dstack verification failed: " ++ (dstack_result.reason.getD "unknown")]
  -- 2. Compose Hash Verification
  let reported_compose_hash := info.compose_hash
  let (compose_verified, errs₂) :=
    match pyStr app_compose, pyStr reported_compose_hash with
    | some ac, some rh =>
      let ok := na_verify_compose_hash sha256hex ac rh
      (ok, if ok then [] else ["Compose hash mismatch"])
    | _, _ => (false, [])
  -- 3. Report Data Verification (Nonce & Address)
  let (report_data_check, errs₃) :=
    match pyStr dstack_result.report_data, pyStr request_nonce,
          pyStr att.signing_address with
    | some rd, some rn, some sa =>
      let rc := verify_report_data rd sa rn
      (some rc,
       if rc.valid then []
       else ["Report data check failed: " ++ ((pyStr rc.error).getD "mismatch")])
    | _, _, _ => (none, [])
  -- 4. GPU Verification
  let (gpu, errs₄) :=
    match att.nvidia_payload with
    | none => (none, [])
    | some payload =>
      let gpu_nonce := payload.nonce
      let nonce_errs :=
        match pyStr request_nonce, pyStr gpu_nonce with
        | some rn, some g =>
          if pyLower rn ≠ pyLower g then
            ["GPU nonce mismatch: expected " ++ rn ++ ", got " ++ g]
          else []
        | _, _ => []
      let gpu_result := oc.gpu payload
      let gpu_errs :=
        if gpu_result.model_verified then []
        else ["GPU verification failed: " ++ pyNoneStr gpu_result.error]
      (some gpu_result, nonce_errs ++ gpu_errs)
  let errors := errs₁ ++ errs₂ ++ errs₃ ++ errs₄
  { name := name
    is_valid := errors.isEmpty && is_valid_dstack
    dstack := dstack_result
    compose_verified := compose_verified
    report_data_check := report_data_check
    gpu := gpu
    errors := errors }

/-- The dict `verify_report_data` returned, as stored into `details`
(for the flattening loop's truthiness checks and claims rendering). -/
def rdCheckToJV (rc : RdCheck) : JV :=
  JV.obj
    ([("valid", JV.b rc.valid)] ++
     (match rc.address_match with
      | some a => [("address_match", JV.b a)] | none => []) ++
     (match rc.nonce_match with
      | some n => [("nonce_match", JV.b n)] | none => []) ++
     (match rc.error with | some e => [("error", JV.s e)] | none => []))

/-- `gpu_result.model_dump()`. -/
def resultToJV (r : VerificationResult) : JV :=
  JV.obj
    [("model_verified", JV.b r.model_verified),
     ("provider", match r.provider with | some p => JV.s p | none => JV.null),
     ("timestamp", JV.n r.timestamp),
     ("hardware_type", JV.arr (r.hardware_type.map JV.s)),
     ("model_id", match r.model_id with | some m => JV.s m | none => JV.null),
     ("request_nonce",
      match r.request_nonce with | some n => JV.s n | none => JV.null),
     ("signing_address",
      match r.signing_address with | some s => JV.s s | none => JV.null),
     ("claims", JV.obj r.claims),
     ("error", match r.error with | some e => JV.s e | none => JV.null),
     ("raw", r.raw.getD JV.null)]

/-- One step of the flatten-and-clean-up loop of
`NearAICloudVerifier.verify`: the flattened component entry. -/
def na_flatten_component (comp : NaCompResult) : String × JV :=
  let flattened : List (String × JV) := [("is_valid", JV.b comp.is_valid)]
  let flattened :=
    if comp.errors.isEmpty then flattened
    else flattened ++ [("errors", JV.arr (comp.errors.map JV.s))]
  -- merge the dstack `details` mapping, dropping any huge raw quote
  let dstack_details := comp.dstack.details
  let flattened :=
    if dstack_details.isEmpty then flattened
    else dictDel (dstack_details.foldl (fun d p => dictSet d p.1 p.2) flattened)
      "quote"
  (comp.name, JV.obj flattened)

/-- `NearAICloudVerifier.verify`.  `gateway_attestation` and
`model_attestations` are the two halves of the report dict;
`request_nonce`/`model_id` are the keyword arguments. -/
def nearai_verify (sha256hex : String → String) (oc : NearaiOracles)
    (gateway_attestation : Option AttData)
    (model_attestations : Option (List AttData))
    (request_nonce : Option String) (model_id : Option String) :
    VerificationResult :=
  match gateway_attestation with
  | none =>
    { model_verified := false
      provider := some "nearai"
      model_id := model_id
      error := some "Missing gateway_attestation"
      hardware_type := []
      claims := [] }
  | some gateway_data =>
    let request_nonce := match pyStr request_nonce with
      | some rn => some rn
      | none => gateway_data.request_nonce
    let signing_address := gateway_data.signing_address
    let gateway_res :=
      na_verify_component sha256hex oc "gateway" gateway_data request_nonce
    let models := model_attestations.getD []
    let model_results :=
      (models.enum.map (fun p =>
        let name := if p.1 = 0 then "model" else "model-" ++ toString p.1
        na_verify_component sha256hex oc name p.2 request_nonce))
    let component_results := gateway_res :: model_results
    -- Flatten and Clean up component details
    let flattened_components := component_results.map na_flatten_component
    -- `gpu_info.get("claims")` of the model dump is the gpu result's claims dict
    let nvidia_claims :=
      component_results.foldl
        (fun (acc : Option JV) comp =>
          match comp.gpu with
          | some g => some (JV.obj g.claims)
          | none => acc)
        none
    let report_data_check :=
      component_results.foldl
        (fun (acc : Option RdCheck) comp =>
          match comp.report_data_check with
          | some rc => some rc
          | none => acc)
        none
    let all_valid := component_results.all (·.is_valid)
    let errors := component_results.flatMap (·.errors)
    let model_verified := all_valid
    let hardware_types :=
      ["INTEL_TDX"] ++ (if optJVTruthy nvidia_claims then ["NVIDIA_CC"] else [])
    let claims : List (String × JV) :=
      [("components", JV.obj flattened_components)]
    let claims :=
      if optJVTruthy nvidia_claims then
        claims ++ [("nvidia", nvidia_claims.getD JV.null)]
      else claims
    -- 5. Optional ITA appraisal for the main model quote (silent on failure)
    let claims :=
      if ((match models.head? with
           | some m => (m.intel_quote.bind fromhex).isSome
           | none => false) && optJVTruthy oc.ita) then
        dictSet claims "intel_trust_authority" (oc.ita.getD JV.null)
      else claims
    let _ := report_data_check
    { model_verified := model_verified
      provider := some "nearai"
      model_id := model_id
      request_nonce := request_nonce
      signing_address := signing_address
      error := if errors.isEmpty then none
               else some (String.intercalate "; " errors)
      claims := claims
      hardware_type := hardware_types }

/-! ### `PhalaCloudVerifier` (src/confidential_verifier/verifiers/phala.py) -/

/-- A guest-agent info block (`kms_guest_agent_info` /
`gateway_guest_agent_info`): `quote` models
`.get("app_certificates", [{}])[0].get("quote")`. -/
structure PhalaAgentInfo where
  tcb_info : Option TcbInfo := none
  vm_config : Option String := none
  quote : Option String := none

structure PhalaInstance where
  quote : Option String := none
  eventlog : Option String := none
  image_version : Option String := none

/-- The Phala Cloud attestation system-info document.  `kms_url` is
`system_info["kms_info"]["url"]` (used only to decide whether the PRPC
fetch is attempted — the URL string itself just shapes the request);
`kms_info_claims` is the raw `kms_info` mapping as copied verbatim into
the result claims. -/
structure SysInfo where
  instances : List PhalaInstance := []
  kms_url : Option String := none
  kms_info_claims : Option JV := none
  vm_config : Option String := none
  kms_guest_agent_info : Option PhalaAgentInfo := none
  gateway_guest_agent_info : Option PhalaAgentInfo := none
  app_id : Option String := none
  contract_address : Option String := none

/-- Outcome of the authoritative PRPC `Info` fetch for the Main App:
`none` models a non-200 response or a raised request exception (both
logged and swallowed); on success, `vm_config` and the `app_compose`
recovered from the escaped-JSON `tcb_info`. -/
structure PrpcInfo where
  vm_config : Option String := none
  app_compose : Option String := none

/-- External calls a Phala verification makes.  `gpu_result` and
`model_info_found` are the outcome of `_verify_gpu` (Redpill catalog +
attestation-report fetch + NRAS): the optional `VerificationResult` it
returns, and whether `self.model_info` was populated. -/
structure PhalaOracles where
  get_system_info : Except String SysInfo := .error "fetch failed"
  prpc : Option PrpcInfo := none
  dstack : Option String → Option String → Option String → DstackResult
  gpu_result : Option VerificationResult := none
  model_info_found : Bool := false

/-- Result dict of `PhalaCloudVerifier._verify_component`; on the
missing-data branch only `name`, `is_valid` and `reason` are present. -/
structure PhCompResult where
  name : String
  is_valid : Bool
  compose_verified : Option Bool := none
  details : Option (List (String × JV)) := none
  reason : Option String := none

/-- `PhalaCloudVerifier._verify_component`. -/
def ph_verify_component (sha256hex : String → String)
    (dstack : Option String → Option String → Option String → DstackResult)
    (name : String) (quote event_log vm_config app_compose : Option String) :
    PhCompResult :=
  -- event_log / vm_config are JSON-encoded if not already strings
  let dstack_result := dstack quote event_log vm_config
  let is_valid := dstack_result.is_valid
  let details := dstack_result.details
  let reason := dstack_result.reason
  let (is_valid, compose_ok, reason) :=
    match pyStr app_compose with
    | some ac =>
      if is_valid then
        match pyStr (dstackComposeHash details) with
        | some expected =>
          let actual := sha256hex ac
          if actual ≠ expected then
            (false, false,
             some ("Compose hash mismatch for " ++ name ++ ": expected " ++
               expected ++ ", got " ++ actual))
          else (is_valid, true, reason)
        | none => (is_valid, true, reason)
      else (is_valid, true, reason)
    | none => (is_valid, true, reason)
  { name := name
    is_valid := is_valid
    compose_verified := some compose_ok
    details := some details
    reason := reason }

/-- A component record of the `components` list assembled in
`PhalaCloudVerifier.verify` before verification. -/
structure PhComponent where
  name : String
  quote : Option String := none
  event_log : Option String := none
  vm_config : Option String := none
  app_compose : Option String := none

def phCompToJV (r : PhCompResult) : JV :=
  JV.obj
    ([("name", JV.s r.name), ("is_valid", JV.b r.is_valid)] ++
     (match r.compose_verified with
      | some c => [("compose_verified", JV.b c)] | none => []) ++
     (match r.details with
      | some d => [("details", JV.obj d)] | none => []) ++
     [("reason", match r.reason with | some s => JV.s s | none => JV.null)])

/-- The result `PhalaCloudVerifier.verify` returns from its
`except Exception` handler. -/
def phalaExceptResult (e : String) : VerificationResult :=
  { model_verified := false
    hardware_type := []
    claims := []
    error := some e }

/-- `PhalaCloudVerifier.verify`.  The whole body runs inside
`try/except`; in the typed model the reachable raises are the
system-info fetch failure (re-raised by `get_system_info`) and the
explicit `raise Exception("No instances found for this app.")`. -/
def phala_verify (sha256hex : String → String) (oc : PhalaOracles)
    (system_info : Option SysInfo) : VerificationResult :=
  -- 1. Fetch System Info (if not provided)
  let si : Except String SysInfo :=
    match system_info with
    | some s => .ok s
    | none => oc.get_system_info
  match si with
  | .error e => phalaExceptResult e
  | .ok si =>
    match si.instances.head? with
    | none => phalaExceptResult "No instances found for this app."
    | some instance₀ =>
      -- 2. Authoritative Main App info via PRPC when a KMS URL is known
      let (main_app_vm_config, main_app_compose) :=
        match pyStr si.kms_url with
        | some _ =>
          match oc.prpc with
          | some p => (p.vm_config, p.app_compose)
          | none => (none, none)
        | none => (none, none)
      -- Fallback for Main App vm_config if PRPC failed
      let main_app_vm_config :=
        match pyStr main_app_vm_config with
        | some v => some v
        | none => si.vm_config
      let components : List PhComponent :=
        [{ name := "Main App", quote := instance₀.quote,
           event_log := instance₀.eventlog, vm_config := main_app_vm_config,
           app_compose := main_app_compose }] ++
        (match si.kms_guest_agent_info with
         | some kms_info =>
           let tcb := kms_info.tcb_info.getD {}
           [{ name := "KMS", quote := kms_info.quote,
              event_log := tcb.event_log, vm_config := kms_info.vm_config,
              app_compose := tcb.app_compose }]
         | none => []) ++
        (match si.gateway_guest_agent_info with
         | some gw_info =>
           let tcb := gw_info.tcb_info.getD {}
           [{ name := "Gateway", quote := gw_info.quote,
              event_log := tcb.event_log, vm_config := gw_info.vm_config,
              app_compose := tcb.app_compose }]
         | none => [])
      -- 3. Verify all components
      let results := components.map (fun c =>
        if (pyStr c.quote).isNone ∨ (pyStr c.event_log).isNone ∨
            (pyStr c.vm_config).isNone then
          { name := c.name, is_valid := false,
            reason :=
              some "Missing required verification data (quote, event_log, or vm_config)" }
        else
          ph_verify_component sha256hex oc.dstack c.name c.quote c.event_log
            c.vm_config c.app_compose)
      let all_valid := results.all (·.is_valid)
      let error_msgs := (results.filter (fun r => !r.is_valid)).map
        (fun r => r.name ++ " failed: " ++ pyNoneStr r.reason)
      -- 4./5. GPU result and error message aggregation
      let gpu_result := oc.gpu_result
      let model_verified := all_valid
      -- `hardware_types` starts as ["INTEL_TDX"]; "NVIDIA_CC" is appended
      -- only on a verified GPU result (and only when all_valid)
      let (gpu_hw, error_msgs) :=
        if model_verified then
          match gpu_result with
          | some gr =>
            if gr.model_verified then
              (["NVIDIA_CC"], error_msgs)
            else
              match pyStr gr.error with
              | some e =>
                ([], error_msgs ++ ["GPU verification failed: " ++ e])
              | none => ([], error_msgs)
          | none =>
            if oc.model_info_found then
              ([],
               error_msgs ++
                 ["GPU verification skipped (no attestation report found)"])
            else ([], error_msgs)
        else
          ([],
           if error_msgs.isEmpty then
             ["One or more components failed verification"]
           else error_msgs)
      let hardware_types := ["INTEL_TDX"] ++ gpu_hw
      let phala_claims : JV :=
        JV.obj
          [("app_id", match si.app_id with | some a => JV.s a | none => JV.null),
           ("contract_address",
            match si.contract_address with | some c => JV.s c | none => JV.null),
           ("image_version",
            match instance₀.image_version with
            | some v => JV.s v | none => JV.null),
           ("kms_info", si.kms_info_claims.getD JV.null)]
      let claims : List (String × JV) :=
        [("components", JV.obj (results.map (fun r => (r.name, phCompToJV r)))),
         ("phala", phala_claims)]
      let claims :=
        match gpu_result with
        | some gr => claims ++ [("nvidia", JV.obj gr.claims)]
        | none => claims
      { model_verified := model_verified
        hardware_type := hardware_types
        claims := claims
        error := if error_msgs.isEmpty then none
                 else some (String.intercalate "; " error_msgs) }

/-! ### `RedpillVerifier` (src/confidential_verifier/verifiers/redpill.py) -/

/-- A Redpill catalog entry as read by the verifier: `id`,
`providers` (default `[]`) and `metadata.appid`. -/
structure ModelInfo where
  id : Option String := none
  providers : List String := []
  appid : Option String := none

/-- The nested NearAI-shaped raw data (`report_data.get("raw")`). -/
structure NearaiShape where
  gateway_attestation : Option AttData := none
  model_attestations : Option (List AttData) := none

/-- The raw attestation report dict handed to `RedpillVerifier.verify`
(also the `report.raw` of the SDK): the union of every key any branch
reads. -/
structure RawReport where
  model_id : Option String := none
  model : Option String := none
  intel_quote : Option String := none
  nvidia_payload : Option NvPayload := none
  request_nonce : Option String := none
  signing_address : Option String := none
  repo : Option String := none
  gateway_attestation : Option AttData := none
  model_attestations : Option (List AttData) := none
  rawInner : Option NearaiShape := none

/-- Redpill model id → Tinfoil model id (hard-coded). -/
def tinfoil_mapping : List (String × String) :=
  [("qwen/qwen3-coder-480b-a35b-instruct", "qwen3-coder-480b"),
   ("deepseek/deepseek-r1-0528", "deepseek-r1-0528"),
   ("meta-llama/llama-3.3-70b-instruct", "llama3-3-70b"),
   ("moonshotai/kimi-k2-thinking", "kimi-k2-thinking")]

/-- Redpill model id → NearAI model id (hard-coded). -/
def nearai_mapping : List (String × String) :=
  [("z-ai/glm-4.6", "zai-org/GLM-4.6"),
   ("qwen/qwen3-30b-a3b-instruct-2507", "Qwen/Qwen3-30B-A3B-Instruct-2507"),
   ("deepseek/deepseek-chat-v3.1", "deepseek-ai/DeepSeek-V3.1")]

/-- Python `repr` of a list of strings, as interpolated by
`f"Model provided by {providers} is not verifiable"`. -/
def pyListRepr (l : List String) : String :=
  let q := String.singleton (Char.ofNat 39)
  "[" ++ String.intercalate ", " (l.map (fun s => q ++ s ++ q)) ++ "]"

/-- External data a Redpill verification consumes: the model catalog
(`GET /v1/models`; a fetch failure yields `[]`), the Tinfoil repo read
from the YAML config (`None` when the read failed), and the oracles of
the delegated Tinfoil / NearAI verifiers. -/
structure RedpillOracles where
  models : List ModelInfo := []
  tinfoil_repo : Option String := none
  tin : TinOracles := {}
  nearai : NearaiOracles

/-- `str(e)` of the `TypeError` raised by
`phala_verifier.verify(nvidia_payload=nvidia_payload)`:
`PhalaCloudVerifier.verify(self, system_info=None)` accepts no
`nvidia_payload` keyword, so the call itself raises before any
verification runs (message as produced by CPython ≥ 3.10). -/
def phalaKwargMsg : String :=
  "PhalaCloudVerifier.verify() got an unexpected keyword argument " ++
    String.singleton (Char.ofNat 39) ++ "nvidia_payload" ++
    String.singleton (Char.ofNat 39)

/-- The result of `RedpillVerifier.verify`'s `except Exception`
handler. -/
def redpillExceptResult (e : String) : VerificationResult :=
  { model_verified := false
    hardware_type := []
    claims := []
    error := some e }

/-- `RedpillVerifier.verify`.  The body is wrapped in `try/except`; the
reachable raises in the typed model are (a) a `ValueError` from the
delegated Tinfoil path's quote normalisation and (b) the `TypeError`
from the Phala path's `verify(nvidia_payload=...)` call, both of which
land in the handler. -/
def redpill_verify (sha256hex : String → String) (oc : RedpillOracles)
    (report_data : RawReport) : VerificationResult :=
  -- 1. Extract model_id and look up model info
  let model_id := match pyStr report_data.model_id with
    | some m => some m
    | none => report_data.model
  match pyStr model_id with
  | none =>
    { model_verified := false, hardware_type := [], claims := []
      error := some "Missing model_id in report data" }
  | some mid =>
    match oc.models.find? (fun m => m.id == some mid) with
    | none =>
      { model_verified := false, hardware_type := []
        claims := [("model_id", JV.s mid)]
        error := some ("Could not find model info for model " ++ mid) }
    | some model_info =>
      let providers := model_info.providers
      if providers.contains "tinfoil" then
        match (tinfoil_mapping.find? (fun p => p.1 == mid)).map (·.2) with
        | none =>
          { model_verified := false, hardware_type := []
            claims := [("model_id", JV.s mid),
                       ("providers", JV.arr (providers.map JV.s))]
            error := some ("No Tinfoil mapping for model " ++ mid) }
        | some tinfoil_id =>
          let repo := oc.tinfoil_repo
          match tinfoil_verify
              (.dictQ report_data.intel_quote (some tinfoil_id) repo none none)
              oc.tin with
          | .error e => redpillExceptResult e
          | .ok result =>
            let claims :=
              dictSet (dictSet result.claims "redpill_model_id" (JV.s mid))
                "model_provider" (JV.s "tinfoil")
            { result with claims := claims }
      else if providers.contains "near-ai" then
        match (nearai_mapping.find? (fun p => p.1 == mid)).map (·.2) with
        | none =>
          { model_verified := false, hardware_type := []
            claims := [("model_id", JV.s mid),
                       ("providers", JV.arr (providers.map JV.s))]
            error := some ("No NearAI mapping for model " ++ mid) }
        | some nearai_id =>
          -- `raw_data = report_data.get("raw") or report_data`
          let raw_data : NearaiShape :=
            match report_data.rawInner with
            | some shape => shape
            | none =>
              { gateway_attestation := report_data.gateway_attestation
                model_attestations := report_data.model_attestations }
          -- only the first model attestation is kept when several come in
          let raw_data :=
            match raw_data.model_attestations with
            | some atts =>
              if atts.length > 1 then
                { raw_data with model_attestations := some (atts.take 1) }
              else raw_data
            | none => raw_data
          let result :=
            nearai_verify sha256hex oc.nearai raw_data.gateway_attestation
              raw_data.model_attestations none none
          let claims :=
            dictSet (dictSet (dictSet result.claims
                "redpill_model_id" (JV.s mid))
              "nearai_model_id" (JV.s nearai_id))
              "model_provider" (JV.s "nearai")
          { result with claims := claims }
      else if providers.contains "phala" || providers.isEmpty then
        match pyStr model_info.appid with
        | none =>
          { model_verified := false, hardware_type := []
            claims := [("model_id", JV.s mid)]
            error := some ("Could not find Phala app_id for model " ++ mid) }
        | some _app_id =>
          -- 2./3. `nvidia_payload` is parsed if a string; then
          -- `await phala_verifier.verify(nvidia_payload=nvidia_payload)`
          -- raises `TypeError` (no such keyword parameter), so control
          -- reaches the `except Exception` handler: the Phala
          -- verification and the report-data binding check below it
          -- (steps 4., lines 227-258 of redpill.py) never run.
          redpillExceptResult phalaKwargMsg
      else
        { model_verified := false, hardware_type := []
          claims := [("model_id", JV.s mid),
                     ("providers", JV.arr (providers.map JV.s))]
          error := some ("Model provided by " ++ pyListRepr providers ++
            " is not verifiable") }

/-- `RedpillVerifier._extract_report_data_from_quote` (would be used by
the unreachable binding step; also exercised standalone). -/
def extract_report_data_from_quote (intel_quote : String) : Option String :=
  match fromhex intel_quote with
  | none => none
  | some quote_bytes =>
    let body := slice quote_bytes 48 (48 + 584)
    some (bytesToHex (slice body 520 584))

/-! ### `TeeVerifier` (src/confidential_verifier/sdk.py) -/

/-- `AttestationReport` (src/confidential_verifier/types.py).  `raw` is
provider-specific passthrough; where the SDK treats it as a dict it is
the `RawReport` shape above. -/
structure AttestationReport where
  provider : String
  model_id : Option String := none
  intel_quote : String
  request_nonce : Option String := none
  nvidia_payload : Option NvPayload := none
  raw : Option RawReport := none

/-- All external outcomes a `TeeVerifier.verify` call can consume,
bundling the delegated verifiers' oracles with the SDK's own direct
NRAS call. -/
structure SdkOracles where
  redpill : RedpillOracles
  nearai : NearaiOracles
  tin : TinOracles := {}
  intel_dcap : Except String DcapOut := .error "collateral unavailable"
  intel_ita : Option JV := none
  nvidia : NvPayload → VerificationResult

/-- The pure tail of `TeeVerifier.verify`'s Intel/Tinfoil path: return a
failed Intel result as is; otherwise, when a GPU payload is present,
combine the Intel verdict with the NRAS verdict — keeping
`model_verified` from Intel and surfacing the NVIDIA error when the GPU
attestation failed. -/
def tee_combine (provider_name : String) (nvidia_payload : Option NvPayload)
    (nvidiaO : NvPayload → VerificationResult)
    (intel_result : VerificationResult) : VerificationResult :=
  if !intel_result.model_verified then
    intel_result
  else
    match nvidia_payload with
    | some payload =>
      let nvidia_result := nvidiaO payload
      let combined_claims : List (String × JV) :=
        [("intel", JV.obj intel_result.claims),
         ("nvidia", JV.obj nvidia_result.claims)]
      let raw_combined : JV :=
        JV.obj [("intel", intel_result.raw.getD JV.null),
                ("nvidia", nvidia_result.raw.getD JV.null)]
      if nvidia_result.model_verified then
        { model_verified := true
          provider := some provider_name
          hardware_type := ["INTEL_TDX", "NVIDIA_CC"]
          claims := combined_claims
          raw := some raw_combined }
      else
        { model_verified := intel_result.model_verified
          provider := some provider_name
          hardware_type := ["INTEL_TDX", "NVIDIA_CC"]
          claims := combined_claims
          raw := some raw_combined
          error := nvidia_result.error }
    | none => intel_result

/-- `TeeVerifier.verify`.  An `.error` value is an exception escaping to
the caller (only the quote normalisation of the Intel/Tinfoil path can
raise).  The provider map holds `tinfoil`/`redpill`/`nearai`;
`redpill`/`nearai` are dispatched before the lookup, so the looked-up
verifier is `TinfoilTdxVerifier` for `tinfoil` and the fallback
`IntelTdxVerifier` for any other provider string. -/
def tee_verify (sha256hex : String → String) (oc : SdkOracles)
    (report : AttestationReport) : Except String VerificationResult :=
  let provider_name := pyLower report.provider
  if provider_name = "nearai" then
    match report.raw with
    | none =>
      .ok { model_verified := false
            provider := some provider_name
            hardware_type := ["INTEL_TDX"]  -- fallback
            claims := []
            error := some "Missing raw report data for NearAI verification" }
    | some raw =>
      .ok (nearai_verify sha256hex oc.nearai raw.gateway_attestation
        raw.model_attestations report.request_nonce report.model_id)
  else if provider_name = "redpill" then
    match report.raw with
    | none =>
      .ok { model_verified := false
            provider := some provider_name
            hardware_type := ["INTEL_TDX"]
            claims := []
            error := some "Missing raw report data for Redpill verification" }
    | some raw =>
      -- `{**report.raw, "request_nonce": ..., "nvidia_payload": ...}`
      let merged := { raw with
                      request_nonce := report.request_nonce
                      nvidia_payload := report.nvidia_payload }
      .ok (redpill_verify sha256hex oc.redpill merged)
  else
    -- Wrap quote with metadata if available in raw
    let quote_input :=
      match report.raw with
      | some raw =>
        QuoteInput.dictQ (some report.intel_quote) raw.model_id raw.repo
          report.request_nonce raw.signing_address
      | none => QuoteInput.hexS report.intel_quote
    -- 1. Verify Intel TDX Quote (Mandatory)
    match (if provider_name = "tinfoil" then
             tinfoil_verify quote_input oc.tin
           else
             intel_verify quote_input oc.intel_dcap oc.intel_ita) with
    | .error e => .error e
    | .ok intel_result =>
      -- 2. Verify Nvidia CC Payload if present
      .ok (tee_combine provider_name report.nvidia_payload oc.nvidia
        intel_result)

/-! ## Infrastructure lemmas -/

theorem nibbleVal_nibbleChar (n : Nat) (h : n < 16) :
    nibbleVal (nibbleChar n) = some ⟨n, h⟩ := by
  interval_cases n <;> rfl

theorem fromhexChars_hexChars (bs : List Byte) :
    fromhexChars (hexChars bs) = some bs := by
  induction bs with
  | nil => rfl
  | cons b bs ih =>
    have h₁ : b.val / 16 < 16 := by omega
    have h₂ : b.val % 16 < 16 := by omega
    simp only [hexChars, fromhexChars, nibbleVal_nibbleChar _ h₁,
      nibbleVal_nibbleChar _ h₂, ih]
    congr 2
    apply Fin.ext
    show b.val / 16 * 16 + b.val % 16 = b.val
    omega

theorem fromhex_bytesToHex (bs : List Byte) :
    fromhex (bytesToHex bs) = some bs :=
  fromhexChars_hexChars bs

theorem hexChars_length (bs : List Byte) :
    (hexChars bs).length = 2 * bs.length := by
  induction bs with
  | nil => rfl
  | cons b bs ih => simp [hexChars, ih]; omega

theorem bytesToHex_length (bs : List Byte) :
    (bytesToHex bs).length = 2 * bs.length :=
  hexChars_length bs

theorem nibbleChar_ne_x (n : Nat) (h : n < 16) : nibbleChar n ≠ 'x' := by
  interval_cases n <;> decide

theorem startsWith0x_bytesToHex (bs : List Byte) (h : bs ≠ []) :
    startsWith0x (bytesToHex bs) = false := by
  match bs with
  | b :: rest =>
    have h₂ : b.val % 16 < 16 := by omega
    have hx := nibbleChar_ne_x _ h₂
    simp only [bytesToHex, hexChars, startsWith0x]
    split
    · next heq =>
      simp only [List.cons.injEq] at heq
      exact absurd heq.2.1 hx
    · rfl

theorem strip0x_bytesToHex (bs : List Byte) (h : bs ≠ []) :
    strip0x (bytesToHex bs) = bytesToHex bs := by
  simp [strip0x, startsWith0x_bytesToHex bs h]

theorem pyStr_some (s : String) (h : s ≠ "") : pyStr (some s) = some s := by
  unfold pyStr
  split
  · next heq => injection heq with heq; exact absurd heq h
  · rfl

theorem foldl_enumFrom {α β : Type} (g : β → α → β) (l : List α) (n : Nat) (acc : β) :
    (List.enumFrom n l).foldl (fun a p => g a p.2) acc = l.foldl g acc := by
  induction l generalizing n acc with
  | nil => rfl
  | cons x xs ih => simp [List.enumFrom, List.foldl]; exact ih _ _

/-! ## Claim theorems -/

/-- C5: For every DCAP status string, the Intel TDX verifier returns
`model_verified = true` exactly when the status is one of `UpToDate`,
`SWHardeningNeeded`, `ConfigurationNeeded`,
`ConfigurationAndSWHardeningNeeded`; for every other status it returns
`model_verified = false` with an error naming the status. -/
theorem C5_status_classification (res : DcapOut) :
    ((format_result res).model_verified = true ↔ res.status ∈ SUCCESS_STATUSES) ∧
    (res.status ∉ SUCCESS_STATUSES →
      (format_result res).model_verified = false ∧
      (format_result res).error =
        some ("Verification failed with status: " ++ res.status)) := by
  by_cases h : res.status ∈ SUCCESS_STATUSES
  · have hc : SUCCESS_STATUSES.contains res.status = true := by simpa using h
    simp [format_result, hc, h]
  · have hc : SUCCESS_STATUSES.contains res.status = false := by
      simpa using h
    simp [format_result, hc, h]

/-- Witness for C5 at the concrete statuses `UpToDate` (accepted) and
`Revoked` (rejected). -/
theorem C5_status_classification_witness :
    (format_result { status := "UpToDate" }).model_verified = true ∧
    (format_result { status := "Revoked" }).model_verified = false ∧
    (format_result { status := "Revoked" }).error =
      some "Verification failed with status: Revoked" :=
  ⟨(C5_status_classification { status := "UpToDate" }).1.mpr (by decide),
   ((C5_status_classification { status := "Revoked" }).2 (by decide)).1,
   ((C5_status_classification { status := "Revoked" }).2 (by decide)).2⟩

/-- C10: For every triple of input strings — including non-hex or
wrong-length ones — `verify_report_data` returns a result dict (the
function is total: each fallible step is an explicit branch, mirroring
the source's `try/except`), and whenever `valid` is true both
`address_match` and `nonce_match` are true. -/
theorem C10_verify_report_data_sound (a b c : String) :
    (verify_report_data a b c).valid = true →
    (verify_report_data a b c).address_match = some true ∧
    (verify_report_data a b c).nonce_match = some true := by
  simp only [verify_report_data]
  split
  · simp
  · split
    · simp
    · split
      · simp
      · split
        · simp
        · intro h
          simp only [Bool.and_eq_true] at h
          simp [h.1, h.2]

/-- Concrete 20-byte address for witnesses. -/
def addrW : List Byte := List.replicate 20 (17 : Byte)

/-- Concrete 32-byte nonce for witnesses. -/
def nonceW : List Byte := List.replicate 32 (34 : Byte)

/-- The well-formed report data built from `addrW` and `nonceW`. -/
def rdW : List Byte := addrW ++ List.replicate 12 (0 : Byte) ++ nonceW

/-- Witness for C10 at a concrete triple on which `valid` is true. -/
theorem C10_verify_report_data_sound_witness :
    (verify_report_data (bytesToHex rdW) (bytesToHex addrW)
      (bytesToHex nonceW)).address_match = some true ∧
    (verify_report_data (bytesToHex rdW) (bytesToHex addrW)
      (bytesToHex nonceW)).nonce_match = some true :=
  C10_verify_report_data_sound (bytesToHex rdW) (bytesToHex addrW)
    (bytesToHex nonceW) (by decide)

/-- On all-hex input of the right length, `verify_report_data` reduces
to the two byte-level comparisons. -/
theorem verify_report_data_ok (rd ab nb : List Byte) (hrd : rd.length = 64)
    (hab : ab ≠ []) :
    verify_report_data (bytesToHex rd) (bytesToHex ab) (bytesToHex nb) =
      { valid := (rd.take 32 == ljust32 ab) && (rd.drop 32 == nb)
        address_match := some (rd.take 32 == ljust32 ab)
        nonce_match := some (rd.drop 32 == nb) } := by
  simp only [verify_report_data, fromhex_bytesToHex, strip0x_bytesToHex _ hab, hrd]
  simp

/-- On hex input of the wrong length, `verify_report_data` stops at the
length check. -/
theorem verify_report_data_badlen (rd : List Byte) (a n : String)
    (h : rd.length ≠ 64) :
    verify_report_data (bytesToHex rd) a n =
      { valid := false
        error := some ("Invalid report_data length: " ++ toString rd.length) } := by
  simp only [verify_report_data, fromhex_bytesToHex]
  simp [h]

/-- A single changed byte changes the list. -/
theorem set_ne_of_get_ne {l : List Byte} {i : Nat} (hi : i < l.length) {b : Byte}
    (hb : b ≠ l.get ⟨i, hi⟩) : l ≠ l.set i b := by
  intro heq
  have h₁ : l[i]? = (l.set i b)[i]? := by rw [← heq]
  have h₂ : (l.set i b)[i]? = some b := by
    rw [List.getElem?_set_self']
    simp [List.getElem?_eq_getElem hi]
  rw [h₂, List.getElem?_eq_getElem hi] at h₁
  exact hb (by injection h₁ with h; exact h.symm) |>.elim

/-- C4: for every 20-byte address and 32-byte nonce, the report data
`addr ∥ 0x00¹² ∥ nonce` binds: the report-data check is valid; changing
any single byte of the address or of the nonce, or truncating the
report data, makes it invalid. -/
theorem C4_report_data_roundtrip (addr nonce : List Byte)
    (ha : addr.length = 20) (hn : nonce.length = 32) :
    (verify_report_data
      (bytesToHex (addr ++ List.replicate 12 (0 : Byte) ++ nonce))
      (bytesToHex addr) (bytesToHex nonce)).valid = true ∧
    (∀ i (hi : i < addr.length) b, b ≠ addr.get ⟨i, hi⟩ →
      (verify_report_data
        (bytesToHex (addr ++ List.replicate 12 (0 : Byte) ++ nonce))
        (bytesToHex (addr.set i b)) (bytesToHex nonce)).valid = false) ∧
    (∀ j (hj : j < nonce.length) b, b ≠ nonce.get ⟨j, hj⟩ →
      (verify_report_data
        (bytesToHex (addr ++ List.replicate 12 (0 : Byte) ++ nonce))
        (bytesToHex addr) (bytesToHex (nonce.set j b))).valid = false) ∧
    (∀ k, k < 64 →
      (verify_report_data
        (bytesToHex ((addr ++ List.replicate 12 (0 : Byte) ++ nonce).take k))
        (bytesToHex addr) (bytesToHex nonce)).valid = false) := by
  have haddr_ne : addr ≠ [] := by
    intro h; rw [h] at ha; simp at ha
  have hlen : (addr ++ List.replicate 12 (0 : Byte) ++ nonce).length = 64 := by
    simp [ha, hn]
  have htake :
      (addr ++ List.replicate 12 (0 : Byte) ++ nonce).take 32 =
        addr ++ List.replicate 12 (0 : Byte) :=
    List.take_left' (by simp [ha])
  have hdrop :
      (addr ++ List.replicate 12 (0 : Byte) ++ nonce).drop 32 = nonce :=
    List.drop_left' (by simp [ha])
  have hljust : ljust32 addr = addr ++ List.replicate 12 (0 : Byte) := by
    unfold ljust32; rw [ha]
  have hvalid : ∀ (rd ab nb : List Byte), rd.length = 64 → ab ≠ [] →
      (verify_report_data (bytesToHex rd) (bytesToHex ab)
        (bytesToHex nb)).valid =
        ((rd.take 32 == ljust32 ab) && (rd.drop 32 == nb)) := by
    intro rd ab nb h₁ h₂
    rw [verify_report_data_ok _ _ _ h₁ h₂]
  refine ⟨?_, ?_, ?_, ?_⟩
  · rw [hvalid _ _ _ hlen haddr_ne, htake, hdrop, hljust]
    simp
  · intro i hi b hb
    have hset_ne : addr.set i b ≠ [] := by
      intro h
      have := congrArg List.length h
      simp [ha] at this
    have hljust' : ljust32 (addr.set i b) =
        addr.set i b ++ List.replicate 12 (0 : Byte) := by
      unfold ljust32; rw [List.length_set, ha]
    have hne : addr ++ List.replicate 12 (0 : Byte) ≠
        addr.set i b ++ List.replicate 12 (0 : Byte) := by
      intro heq
      exact set_ne_of_get_ne hi hb (List.append_cancel_right heq)
    rw [hvalid _ _ _ hlen hset_ne, htake, hljust',
      beq_eq_false_iff_ne.mpr hne]
    simp
  · intro j hj b hb
    have hne : nonce ≠ nonce.set j b := set_ne_of_get_ne hj hb
    rw [hvalid _ _ _ hlen haddr_ne, hdrop, beq_eq_false_iff_ne.mpr hne]
    simp
  · intro k hk
    have hlen' :
        ((addr ++ List.replicate 12 (0 : Byte) ++ nonce).take k).length = k := by
      simp [hlen]; omega
    rw [verify_report_data_badlen _ _ _ (by rw [hlen']; omega)]

/-- Witness for C4 at `addrW`/`nonceW`, with one address-byte change,
one nonce-byte change and one truncation. -/
theorem C4_report_data_roundtrip_witness :
    (verify_report_data (bytesToHex rdW) (bytesToHex addrW)
      (bytesToHex nonceW)).valid = true ∧
    (verify_report_data (bytesToHex rdW) (bytesToHex (addrW.set 0 18))
      (bytesToHex nonceW)).valid = false ∧
    (verify_report_data (bytesToHex rdW) (bytesToHex addrW)
      (bytesToHex (nonceW.set 5 99))).valid = false ∧
    (verify_report_data (bytesToHex (rdW.take 30)) (bytesToHex addrW)
      (bytesToHex nonceW)).valid = false :=
  ⟨(C4_report_data_roundtrip addrW nonceW (by decide) (by decide)).1,
   (C4_report_data_roundtrip addrW nonceW (by decide) (by decide)).2.1 0
     (by decide) 18 (by decide),
   (C4_report_data_roundtrip addrW nonceW (by decide) (by decide)).2.2.1 5
     (by decide) 99 (by decide),
   (C4_report_data_roundtrip addrW nonceW (by decide) (by decide)).2.2.2 30
     (by decide)⟩

theorem slice_length (l : List Byte) (a b : Nat) :
    (slice l a b).length = min (b - a) (l.length - a) := by
  simp [slice]

/-- Counterexample to C3: a 100-byte quote (< 632 bytes) does not make
`_manual_parse_tdx` fail — it returns the field dict, with the
`report_data` field truncated to the empty string. -/
theorem C3_counterexample_short_quote_parses :
    (List.replicate 100 (0 : Byte)).length < 632 ∧
    manual_parse_tdx (some (List.replicate 100 (0 : Byte))) =
      some (parsedFields (List.replicate 100 (0 : Byte))) ∧
    (parsedFields (List.replicate 100 (0 : Byte))).report_data = "" :=
  ⟨by decide, rfl, by decide⟩

/-- C3 (amended): for every quote of fewer than 632 bytes, the manual
TDX parser does not fail — it returns truncated measurement fields, the
`report_data` hex being strictly shorter than the 128 characters of a
full 64-byte field — and the report-data binder rejects such a
truncated `report_data` by its length check. -/
theorem C3_short_quote_truncated (q : List Byte) (hq : q.length < 632) :
    manual_parse_tdx (some q) = some (parsedFields q) ∧
    (parsedFields q).report_data.length < 128 ∧
    ∀ a n, (verify_report_data (parsedFields q).report_data a n).valid = false := by
  have hrd : (slice (slice q 48 (48 + 584)) 520 584).length < 64 := by
    rw [slice_length, slice_length]
    omega
  have hrepd : (parsedFields q).report_data =
      bytesToHex (slice (slice q 48 (48 + 584)) 520 584) := rfl
  refine ⟨rfl, ?_, ?_⟩
  · rw [hrepd, bytesToHex_length]
    omega
  · intro a n
    rw [hrepd]
    rw [verify_report_data_badlen _ _ _ (by omega)]

/-- Witness for C3's amended statement at the concrete 100-byte quote. -/
theorem C3_short_quote_truncated_witness :
    manual_parse_tdx (some (List.replicate 100 (0 : Byte))) =
      some (parsedFields (List.replicate 100 (0 : Byte))) ∧
    (parsedFields (List.replicate 100 (0 : Byte))).report_data.length < 128 ∧
    (verify_report_data
      (parsedFields (List.replicate 100 (0 : Byte))).report_data
      "aa" "bb").valid = false :=
  ⟨(C3_short_quote_truncated _ (by decide)).1,
   (C3_short_quote_truncated _ (by decide)).2.1,
   (C3_short_quote_truncated _ (by decide)).2.2 "aa" "bb"⟩

/-- A full-length quote yields a 96-character `rt_mr3` hex field
(in particular a non-empty one, so the `if rtmr3` truthiness guard of
the RTMR3 check passes). -/
theorem rt_mr3_length (q : List Byte) (hq : 632 ≤ q.length) :
    (parsedFields q).rt_mr3.length = 96 := by
  have : (parsedFields q).rt_mr3 =
      bytesToHex (slice (slice q 48 (48 + 584)) 472 520) := rfl
  rw [this, bytesToHex_length, slice_length, slice_length]
  omega

/-- C6: a parsed full-length quote whose `mr_seam` is accepted, whose
`td_attributes` and `xfam` equal the pinned constants, and whose
`mr_owner`, `mr_owner_config` and `rt_mr3` are all-zero passes the
Tinfoil hardware policy with zero reasons; violating any single one of
the six conditions adds exactly one reason. -/
theorem C6_hardware_pin (q : List Byte) (hq : 632 ≤ q.length) :
    (ACCEPTED_MR_SEAMS.contains (parsedFields q).mr_seam = true →
     (parsedFields q).td_attributes = EXPECTED_TD_ATTRIBUTES →
     (parsedFields q).xfam = EXPECTED_XFAM →
     (parsedFields q).mr_owner = ZERO_48 →
     (parsedFields q).mr_owner_config = ZERO_48 →
     (parsedFields q).rt_mr3 = RTMR3_ZERO →
     check_hardware_policy (manual_parse_tdx (some q)) = []) ∧
    (ACCEPTED_MR_SEAMS.contains (parsedFields q).mr_seam = false →
     (parsedFields q).td_attributes = EXPECTED_TD_ATTRIBUTES →
     (parsedFields q).xfam = EXPECTED_XFAM →
     (parsedFields q).mr_owner = ZERO_48 →
     (parsedFields q).mr_owner_config = ZERO_48 →
     (parsedFields q).rt_mr3 = RTMR3_ZERO →
     (check_hardware_policy (manual_parse_tdx (some q))).length = 1) ∧
    (ACCEPTED_MR_SEAMS.contains (parsedFields q).mr_seam = true →
     (parsedFields q).td_attributes ≠ EXPECTED_TD_ATTRIBUTES →
     (parsedFields q).xfam = EXPECTED_XFAM →
     (parsedFields q).mr_owner = ZERO_48 →
     (parsedFields q).mr_owner_config = ZERO_48 →
     (parsedFields q).rt_mr3 = RTMR3_ZERO →
     (check_hardware_policy (manual_parse_tdx (some q))).length = 1) ∧
    (ACCEPTED_MR_SEAMS.contains (parsedFields q).mr_seam = true →
     (parsedFields q).td_attributes = EXPECTED_TD_ATTRIBUTES →
     (parsedFields q).xfam ≠ EXPECTED_XFAM →
     (parsedFields q).mr_owner = ZERO_48 →
     (parsedFields q).mr_owner_config = ZERO_48 →
     (parsedFields q).rt_mr3 = RTMR3_ZERO →
     (check_hardware_policy (manual_parse_tdx (some q))).length = 1) ∧
    (ACCEPTED_MR_SEAMS.contains (parsedFields q).mr_seam = true →
     (parsedFields q).td_attributes = EXPECTED_TD_ATTRIBUTES →
     (parsedFields q).xfam = EXPECTED_XFAM →
     (parsedFields q).mr_owner ≠ ZERO_48 →
     (parsedFields q).mr_owner_config = ZERO_48 →
     (parsedFields q).rt_mr3 = RTMR3_ZERO →
     (check_hardware_policy (manual_parse_tdx (some q))).length = 1) ∧
    (ACCEPTED_MR_SEAMS.contains (parsedFields q).mr_seam = true →
     (parsedFields q).td_attributes = EXPECTED_TD_ATTRIBUTES →
     (parsedFields q).xfam = EXPECTED_XFAM →
     (parsedFields q).mr_owner = ZERO_48 →
     (parsedFields q).mr_owner_config ≠ ZERO_48 →
     (parsedFields q).rt_mr3 = RTMR3_ZERO →
     (check_hardware_policy (manual_parse_tdx (some q))).length = 1) ∧
    (ACCEPTED_MR_SEAMS.contains (parsedFields q).mr_seam = true →
     (parsedFields q).td_attributes = EXPECTED_TD_ATTRIBUTES →
     (parsedFields q).xfam = EXPECTED_XFAM →
     (parsedFields q).mr_owner = ZERO_48 →
     (parsedFields q).mr_owner_config = ZERO_48 →
     (parsedFields q).rt_mr3 ≠ RTMR3_ZERO →
     (check_hardware_policy (manual_parse_tdx (some q))).length = 1) := by
  have hne : (parsedFields q).rt_mr3 ≠ "" := by
    intro h
    have := rt_mr3_length q hq
    rw [h] at this
    simp at this
  refine ⟨?_, ?_, ?_, ?_, ?_, ?_, ?_⟩ <;>
    intro h₁ h₂ h₃ h₄ h₅ h₆ <;>
    simp at h₁ <;>
    simp [check_hardware_policy, fget, fgetOpt, manual_parse_tdx,
      h₁, h₂, h₃, h₄, h₅, h₆, hne]

/-- The first accepted MR_SEAM value, as bytes. -/
def mrSeamGoodW : List Byte :=
  (fromhex "49b66faa451d19ebbdbe89371b8daf2b65aa3984ec90110343e9e2eec116af08850fa20e3b1aa9a874d77a65380ee7e6").getD []

/-- `td_attributes = 0x0000001000000000` as quote-body bytes. -/
def tdAttrW : List Byte := [0, 0, 0, 16, 0, 0, 0, 0]

/-- `xfam = 0xe702060000000000` as quote-body bytes. -/
def xfamW : List Byte := [231, 2, 6, 0, 0, 0, 0, 0]

/-- A 632-byte quote satisfying every hardware-pin condition:
48-byte header and `tee_tcb_svn` zeroed (64 bytes), the accepted
`mr_seam`, zero `mr_signer_seam`/`seam_attributes` (56 bytes), pinned
`td_attributes` and `xfam`, and all remaining fields zero. -/
def qC6good : List Byte :=
  List.replicate 64 (0 : Byte) ++ mrSeamGoodW ++ List.replicate 56 (0 : Byte) ++
    tdAttrW ++ xfamW ++ List.replicate 448 (0 : Byte)

/-- The same quote with `mr_seam` zeroed (not accepted). -/
def qC6bad : List Byte :=
  List.replicate 168 (0 : Byte) ++ tdAttrW ++ xfamW ++
    List.replicate 448 (0 : Byte)

set_option maxRecDepth 4096

/-- Witness for C6: the good quote yields zero reasons; the quote whose
`mr_seam` alone is off yields exactly one. -/
theorem C6_hardware_pin_witness :
    check_hardware_policy (manual_parse_tdx (some qC6good)) = [] ∧
    (check_hardware_policy (manual_parse_tdx (some qC6bad))).length = 1 :=
  ⟨(C6_hardware_pin qC6good (by decide)).1 (by decide) (by decide) (by decide)
     (by decide) (by decide) (by decide),
   (C6_hardware_pin qC6bad (by decide)).2.1 (by decide) (by decide) (by decide)
     (by decide) (by decide) (by decide)⟩

/-- A NearAI component with a non-empty error list is not valid. -/
theorem na_component_invalid (sha256hex : String → String) (oc : NearaiOracles)
    (name : String) (att : AttData) (rn : Option String)
    (h : (na_verify_component sha256hex oc name att rn).errors ≠ []) :
    (na_verify_component sha256hex oc name att rn).is_valid = false := by
  simp only [na_verify_component] at h ⊢
  rw [List.isEmpty_eq_false_iff_exists_mem.mpr
    (List.exists_mem_of_ne_nil _ h), Bool.false_and]

/-- C8: a NearAI component carrying a non-empty `nvidia_payload` whose
nonce differs (case-insensitively) from the request nonce records the
error `GPU nonce mismatch: expected …, got …`, and the overall NearAI
result has `model_verified = false`. -/
theorem C8_gpu_nonce_mismatch (sha256hex : String → String)
    (oc : NearaiOracles) (att : AttData) (p : NvPayload) (rn g : String)
    (hp : att.nvidia_payload = some p) (hg : p.nonce = some g) (hg' : g ≠ "")
    (hrn : rn ≠ "") (hmm : pyLower rn ≠ pyLower g) :
    (∀ name, ("GPU nonce mismatch: expected " ++ rn ++ ", got " ++ g) ∈
      (na_verify_component sha256hex oc name att (some rn)).errors) ∧
    (∀ (models : Option (List AttData)) (model_id : Option String),
      (nearai_verify sha256hex oc (some att) models (some rn)
        model_id).model_verified = false) := by
  have hmem : ∀ name,
      ("GPU nonce mismatch: expected " ++ rn ++ ", got " ++ g) ∈
        (na_verify_component sha256hex oc name att (some rn)).errors := by
    intro name
    simp only [na_verify_component, hp, hg, pyStr_some rn hrn, pyStr_some g hg']
    simp [hmm, List.mem_append]
  refine ⟨hmem, ?_⟩
  intro models model_id
  have hinv := na_component_invalid sha256hex oc "gateway" att (some rn)
    (List.ne_nil_of_mem (hmem "gateway"))
  simp only [nearai_verify, pyStr_some rn hrn]
  simp [hinv]

/-- Concrete identity stand-in for the SHA-256 oracle in witnesses. -/
def hashW : String → String := fun s => s

/-- A failed GPU verdict whose claims are empty (the shape the NVIDIA
client produces when NRAS is unreachable or returns garbage). -/
def gpuFailW : VerificationResult :=
  { model_verified := false
    hardware_type := ["NVIDIA_CC"]
    claims := []
    error := some "Nvidia attestation result is false" }

/-- Concrete NearAI oracles for witnesses: dstack returns an empty
verdict, the GPU client the failed empty-claims verdict. -/
def ocW : NearaiOracles :=
  { dstack := fun _ _ _ => {}
    gpu := fun _ => gpuFailW }

/-- A gateway attestation carrying only a GPU payload with nonce "AB". -/
def attW : AttData := { nvidia_payload := some { nonce := some "AB" } }

/-- Witness for C8 at a concrete component whose GPU nonce "AB" differs
from the request nonce "cd". -/
theorem C8_gpu_nonce_mismatch_witness :
    ("GPU nonce mismatch: expected cd, got AB") ∈
      (na_verify_component hashW ocW "gateway" attW (some "cd")).errors ∧
    (nearai_verify hashW ocW (some attW) none (some "cd")
      none).model_verified = false :=
  ⟨(C8_gpu_nonce_mismatch hashW ocW attW { nonce := some "AB" } "cd" "AB" rfl
      rfl (by decide) (by decide) (by decide)).1 "gateway",
   (C8_gpu_nonce_mismatch hashW ocW attW { nonce := some "AB" } "cd" "AB" rfl
      rfl (by decide) (by decide) (by decide)).2 none none⟩

/-- The `gpu` entry a NearAI component records: the NRAS verdict for its
payload, when it carries one. -/
theorem na_component_gpu (sha256hex : String → String) (oc : NearaiOracles)
    (name : String) (att : AttData) (rn : Option String) :
    (na_verify_component sha256hex oc name att rn).gpu =
      match att.nvidia_payload with
      | some p => some (oc.gpu p)
      | none => none := by
  simp only [na_verify_component]
  cases att.nvidia_payload <;> simp

/-- Spec-level reading of the `NVIDIA_CC` condition: the claims dict of
the verdict of the last component (in gateway-then-models order) that
carries a GPU payload. -/
def lastGpuClaims (oc : NearaiOracles) (atts : List AttData) : Option JV :=
  atts.foldl
    (fun acc att =>
      match att.nvidia_payload with
      | some p => some (JV.obj (oc.gpu p).claims)
      | none => acc) none

theorem foldl_gpu_map (sha256hex : String → String) (oc : NearaiOracles)
    (rn : Option String) (l : List (Nat × AttData)) (acc : Option JV) :
    ((l.map (fun p => na_verify_component sha256hex oc
        (if p.1 = 0 then "model" else "model-" ++ toString p.1) p.2 rn)).foldl
      (fun (acc : Option JV) comp =>
        match comp.gpu with
        | some g => some (JV.obj g.claims)
        | none => acc) acc) =
    l.foldl
      (fun (acc : Option JV) p =>
        match p.2.nvidia_payload with
        | some pl => some (JV.obj (oc.gpu pl).claims)
        | none => acc) acc := by
  induction l generalizing acc with
  | nil => rfl
  | cons x xs ih =>
    simp only [List.map, List.foldl]
    rw [na_component_gpu]
    cases x.2.nvidia_payload <;> simp <;> rw [ih]

/-- The `nvidia_claims` extracted by the flattening loop equal the
claims of the last GPU-carrying component's verdict. -/
theorem nvidia_claims_eq (sha256hex : String → String) (oc : NearaiOracles)
    (gw : AttData) (models' : List AttData) (rn : Option String) :
    ((na_verify_component sha256hex oc "gateway" gw rn ::
        models'.enum.map (fun p =>
          na_verify_component sha256hex oc
            (if p.1 = 0 then "model" else "model-" ++ toString p.1) p.2 rn)).foldl
      (fun (acc : Option JV) comp =>
        match comp.gpu with
        | some g => some (JV.obj g.claims)
        | none => acc) none) = lastGpuClaims oc (gw :: models') := by
  rw [List.foldl_cons, foldl_gpu_map]
  have henum : models'.enum.foldl
      (fun (acc : Option JV) p =>
        match p.2.nvidia_payload with
        | some pl => some (JV.obj (oc.gpu pl).claims)
        | none => acc)
      (match (na_verify_component sha256hex oc "gateway" gw rn).gpu with
       | some g => some (JV.obj g.claims)
       | none => none) =
      models'.foldl
        (fun (acc : Option JV) att =>
          match att.nvidia_payload with
          | some pl => some (JV.obj (oc.gpu pl).claims)
          | none => acc)
        (match (na_verify_component sha256hex oc "gateway" gw rn).gpu with
         | some g => some (JV.obj g.claims)
         | none => none) :=
    foldl_enumFrom
      (fun (acc : Option JV) (att : AttData) =>
        match att.nvidia_payload with
        | some pl => some (JV.obj (oc.gpu pl).claims)
        | none => acc) models' 0 _
  rw [henum, na_component_gpu]
  unfold lastGpuClaims
  rw [List.foldl_cons]
  cases gw.nvidia_payload <;> rfl

/-- C7 (amended): a NearAI verification with a gateway attestation
always reports `INTEL_TDX`; it additionally reports `NVIDIA_CC` iff the
last component carrying a GPU payload produced a verdict with a
non-empty claims dict. -/
theorem C7_hardware_set (sha256hex : String → String) (oc : NearaiOracles)
    (gw : AttData) (models : Option (List AttData)) (rn mid : Option String) :
    "INTEL_TDX" ∈
      (nearai_verify sha256hex oc (some gw) models rn mid).hardware_type ∧
    ("NVIDIA_CC" ∈
        (nearai_verify sha256hex oc (some gw) models rn mid).hardware_type ↔
      optJVTruthy (lastGpuClaims oc (gw :: models.getD [])) = true) := by
  simp only [nearai_verify, nvidia_claims_eq]
  constructor
  · simp
  · cases h : optJVTruthy (lastGpuClaims oc (gw :: models.getD [])) <;> simp [h]

/-- Counterexample to C9: `IntelTdxVerifier.verify` on a non-hex quote
string raises `ValueError` from `bytes.fromhex` before its `try` block
— no `VerificationResult` is returned — even though the DCAP oracle
would have succeeded. -/
theorem C9_counterexample_intel_raises :
    intel_verify (.hexS "zz") (.ok { status := "UpToDate" }) none =
      .error fromhexErrMsg := rfl

/-- C9 (amended): once the quote input normalises (valid hex, bytes, or
a dict), `IntelTdxVerifier.verify` and `TinfoilTdxVerifier.verify`
always return a `VerificationResult`, whatever the oracles did; and
`TeeVerifier.verify` always returns one for the `nearai`/`redpill`
providers and, for the other providers, whenever the report's
`intel_quote` is valid hex.  (The composite
`RedpillVerifier`/`NearAICloudVerifier`/`PhalaCloudVerifier` embeddings
are plain functions — their `try/except` wrappers make them total.) -/
theorem C9_result_totality :
    (∀ (q : QuoteInput) (dcap : Except String DcapOut) (ita : Option JV)
       (ob : Option (List Byte)), normalizeQuote q = .ok ob →
       ∃ r, intel_verify q dcap ita = .ok r) ∧
    (∀ (q : QuoteInput) (oc : TinOracles) (ob : Option (List Byte)),
       normalizeQuote q = .ok ob → ∃ r, tinfoil_verify q oc = .ok r) ∧
    (∀ (sha256hex : String → String) (oc : SdkOracles)
       (report : AttestationReport),
       pyLower report.provider = "nearai" ∨ pyLower report.provider = "redpill" ∨
         (fromhex report.intel_quote).isSome = true →
       ∃ r, tee_verify sha256hex oc report = .ok r) := by
  have A : ∀ (q : QuoteInput) (dcap : Except String DcapOut) (ita : Option JV)
      (ob : Option (List Byte)), normalizeQuote q = .ok ob →
      ∃ r, intel_verify q dcap ita = .ok r := by
    intro q dcap ita ob h
    simp only [intel_verify, h]
    cases dcap <;> exact ⟨_, rfl⟩
  have B : ∀ (q : QuoteInput) (oc : TinOracles) (ob : Option (List Byte)),
      normalizeQuote q = .ok ob → ∃ r, tinfoil_verify q oc = .ok r := by
    intro q oc ob h
    obtain ⟨r, hr⟩ := A q oc.dcap oc.ita ob h
    simp only [tinfoil_verify, h, hr]
    exact ⟨_, rfl⟩
  refine ⟨A, B, ?_⟩
  intro sha256hex oc report h
  simp only [tee_verify]
  by_cases h₁ : pyLower report.provider = "nearai"
  · simp only [h₁, if_pos rfl]
    cases report.raw <;> exact ⟨_, rfl⟩
  · by_cases h₂ : pyLower report.provider = "redpill"
    · simp only [h₁, h₂, if_neg, if_pos rfl, reduceIte]
      cases report.raw <;> exact ⟨_, rfl⟩
    · have h₃ : (fromhex report.intel_quote).isSome = true := by
        rcases h with h | h | h
        · exact absurd h h₁
        · exact absurd h h₂
        · exact h
      obtain ⟨bs, hbs⟩ := Option.isSome_iff_exists.mp h₃
      simp only [h₁, h₂, reduceIte]
      cases hraw : report.raw with
      | none =>
        have hn : normalizeQuote (QuoteInput.hexS report.intel_quote) =
            .ok (some bs) := by
          simp [normalizeQuote, hbs]
        by_cases h₄ : pyLower report.provider = "tinfoil"
        · obtain ⟨r, hr⟩ := B _ oc.tin _ hn
          simp only [h₄, reduceIte, hr]
          exact ⟨_, rfl⟩
        · obtain ⟨r, hr⟩ := A _ oc.intel_dcap oc.intel_ita _ hn
          simp only [h₄, reduceIte, hr]
          exact ⟨_, rfl⟩
      | some raw =>
        have hn : normalizeQuote (QuoteInput.dictQ (some report.intel_quote)
            raw.model_id raw.repo report.request_nonce raw.signing_address) =
            .ok (some bs) := by
          simp [normalizeQuote, hbs]
        by_cases h₄ : pyLower report.provider = "tinfoil"
        · obtain ⟨r, hr⟩ := B _ oc.tin _ hn
          simp only [h₄, reduceIte, hr]
          exact ⟨_, rfl⟩
        · obtain ⟨r, hr⟩ := A _ oc.intel_dcap oc.intel_ita _ hn
          simp only [h₄, reduceIte, hr]
          exact ⟨_, rfl⟩

/-- Extracts whether a verify call returned (rather than raised). -/
def exceptIsOk (e : Except String VerificationResult) : Bool :=
  match e with
  | .ok _ => true
  | .error _ => false

/-- Witness for C9's amended statement: a decodable hex quote makes the
Intel verifier return a result even when the DCAP oracle raised. -/
theorem C9_result_totality_witness :
    exceptIsOk (intel_verify (.hexS "00") (.error "collateral fetch failed")
      none) = true := by
  obtain ⟨r, hr⟩ := C9_result_totality.1 (.hexS "00")
    (.error "collateral fetch failed") none (some [(0 : Byte)]) rfl
  rw [hr]
  rfl

/-- Counterexample to C7: a gateway attestation carrying a GPU payload
produces a GPU verdict (with empty claims, as on an NRAS failure), yet
`NVIDIA_CC` is *not* added to the hardware set; and with no gateway
attestation at all, the hardware set is empty rather than containing
`INTEL_TDX`. -/
theorem C7_counterexample :
    ((na_verify_component hashW ocW "gateway" attW none).gpu.isSome = true ∧
     (nearai_verify hashW ocW (some attW) none none none).hardware_type =
       ["INTEL_TDX"]) ∧
    (nearai_verify hashW ocW none none none none).hardware_type = [] :=
  ⟨⟨rfl, rfl⟩, rfl⟩

/-- C2 (code evaluation): on the Phala path — `phala ∈ providers` or
empty providers, with a present `metadata.appid` — `RedpillVerifier.
verify` returns the `TypeError` result of the
`verify(nvidia_payload=...)` call: `model_verified = false` with the
`TypeError`'s message, the Phala composite never invoked and the
report-data binding check never reached (so the error never contains
`Report data binding failed`). -/
theorem C2_phala_path_typeerror (sha256hex : String → String)
    (oc : RedpillOracles) (report : RawReport) (mid : String) (mi : ModelInfo)
    (hmid : (match pyStr report.model_id with
             | some m => some m
             | none => report.model) = some mid)
    (hmid' : mid ≠ "")
    (hfind : oc.models.find? (fun m => m.id == some mid) = some mi)
    (ht : mi.providers.contains "tinfoil" = false)
    (hn : mi.providers.contains "near-ai" = false)
    (hp : mi.providers.contains "phala" = true ∨ mi.providers.isEmpty = true)
    (aid : String) (haid : pyStr mi.appid = some aid) :
    redpill_verify sha256hex oc report = redpillExceptResult phalaKwargMsg ∧
    (redpill_verify sha256hex oc report).model_verified = false ∧
    (redpill_verify sha256hex oc report).error = some phalaKwargMsg := by
  have hor : (mi.providers.contains "phala" || mi.providers.isEmpty) = true := by
    rcases hp with h | h
    · rw [h, Bool.true_or]
    · rw [h, Bool.or_true]
  have heq : redpill_verify sha256hex oc report =
      redpillExceptResult phalaKwargMsg := by
    simp only [redpill_verify, hmid, pyStr_some mid hmid', hfind, ht, hn, hor,
      haid, Bool.false_eq_true, if_false, if_true]
  exact ⟨heq, by rw [heq]; rfl, by rw [heq]; rfl⟩

/-- The failing input for C2: a catalog model `m1` with
`providers = ["phala"]` and `metadata.appid = "app1"`. -/
def rpModelW : ModelInfo :=
  { id := some "m1", providers := ["phala"], appid := some "app1" }

def rpOcW : RedpillOracles := { models := [rpModelW], nearai := ocW }

/-- A Redpill report for model `m1` with quote, nonce and address
present — the binding check *should* run on it per the spec. -/
def rpReportW : RawReport :=
  { model_id := some "m1", intel_quote := some "00",
    request_nonce := some "aa", signing_address := some "bb" }

/-- Witness for C2 at the concrete failing input. -/
theorem C2_phala_path_typeerror_witness :
    redpill_verify hashW rpOcW rpReportW = redpillExceptResult phalaKwargMsg ∧
    (redpill_verify hashW rpOcW rpReportW).model_verified = false ∧
    (redpill_verify hashW rpOcW rpReportW).error = some phalaKwargMsg :=
  C2_phala_path_typeerror hashW rpOcW rpReportW "m1" rpModelW rfl (by decide)
    rfl (by decide) (by decide) (Or.inl (by decide)) "app1" rfl

/-- SDK oracles for the C1 counterexample: DCAP succeeds, NRAS fails. -/
def sdkOcW : SdkOracles :=
  { redpill := rpOcW
    nearai := ocW
    intel_dcap := .ok { status := "UpToDate" }
    nvidia := fun _ => gpuFailW }

/-- A generic-provider report with a valid quote and a GPU payload. -/
def sdkReportW : AttestationReport :=
  { provider := "generic", intel_quote := "00",
    nvidia_payload := some { nonce := none } }

/-- Projection of a verify outcome to (model_verified, error). -/
def mvErr (e : Except String VerificationResult) :
    Option (Bool × Option String) :=
  match e with
  | .ok v => some (v.model_verified, v.error)
  | .error _ => none

/-- Counterexample to C1: `TeeVerifier.verify` on a report whose TDX
quote verifies but whose GPU payload fails NRAS returns
`model_verified = true` *with the error field set* (sdk.py lines
114-123), so `model_verified ⇒ error is absent` does not hold. -/
theorem C1_counterexample :
    mvErr (tee_verify hashW sdkOcW sdkReportW) =
      some (true, some "Nvidia attestation result is false") := rfl

theorem format_result_hw (d : DcapOut) :
    (format_result d).hardware_type = ["INTEL_TDX"] := by
  simp only [format_result]
  split <;> rfl

theorem intel_success_post_hw (model_id repo : Option String)
    (ita : Option JV) (d : DcapOut) :
    (intel_success_post model_id repo ita d).hardware_type =
      ["INTEL_TDX"] := by
  unfold intel_success_post
  repeat' split
  all_goals exact format_result_hw d

theorem intel_verify_hw (q : QuoteInput) (dcap : Except String DcapOut)
    (ita : Option JV) (r : VerificationResult)
    (h : intel_verify q dcap ita = .ok r) :
    r.hardware_type = ["INTEL_TDX"] := by
  cases hq : normalizeQuote q with
  | error e => simp [intel_verify, hq] at h
  | ok ob =>
    simp only [intel_verify, hq] at h
    cases dcap with
    | error e =>
      injection h with h'
      rw [← h']
      rfl
    | ok d =>
      injection h with h'
      rw [← h']
      exact intel_success_post_hw _ _ _ _

theorem tinfoil_post_hw (i : Option TdxFields) (res : VerificationResult)
    (repo : Option String) (oc : TinOracles) :
    (tinfoil_policy_post i res repo oc).hardware_type = res.hardware_type := by
  unfold tinfoil_policy_post
  repeat' split
  all_goals dsimp only
  all_goals repeat' split
  all_goals rfl

theorem tinfoil_verify_hw (q : QuoteInput) (oc : TinOracles)
    (r : VerificationResult) (h : tinfoil_verify q oc = .ok r) :
    r.hardware_type = ["INTEL_TDX"] := by
  cases hq : normalizeQuote q with
  | error e => simp [tinfoil_verify, hq] at h
  | ok ob =>
    simp only [tinfoil_verify, hq] at h
    cases hi : intel_verify q oc.dcap oc.ita with
    | error e => rw [hi] at h; simp at h
    | ok res =>
      rw [hi] at h
      injection h with h'
      rw [← h', tinfoil_post_hw]
      exact intel_verify_hw q oc.dcap oc.ita res hi

theorem tee_combine_mem (pname : String) (payload : Option NvPayload)
    (nvo : NvPayload → VerificationResult) (ir : VerificationResult)
    (h : "INTEL_TDX" ∈ ir.hardware_type) :
    "INTEL_TDX" ∈ (tee_combine pname payload nvo ir).hardware_type := by
  unfold tee_combine
  repeat' (first | split | dsimp only)
  all_goals first
    | exact h
    | simp

theorem nearai_verify_intel (sha256hex : String → String)
    (oc : NearaiOracles) (gw : Option AttData)
    (models : Option (List AttData)) (rn mid : Option String)
    (h : (nearai_verify sha256hex oc gw models rn mid).model_verified = true) :
    "INTEL_TDX" ∈ (nearai_verify sha256hex oc gw models rn mid).hardware_type := by
  cases gw with
  | none => simp [nearai_verify] at h
  | some g => simp [nearai_verify]

theorem phala_verify_cases (sha256hex : String → String) (oc : PhalaOracles)
    (si : Option SysInfo) :
    "INTEL_TDX" ∈ (phala_verify sha256hex oc si).hardware_type ∨
      (phala_verify sha256hex oc si).model_verified = false := by
  rcases si with _ | s
  · cases hg : oc.get_system_info with
    | error e =>
      right
      simp only [phala_verify, hg]
      rfl
    | ok s2 =>
      cases hh : s2.instances.head? with
      | none =>
        right
        simp only [phala_verify, hg, hh]
        rfl
      | some inst =>
        left
        simp only [phala_verify, hg, hh]
        simp
  · cases hh : s.instances.head? with
    | none =>
      right
      simp only [phala_verify, hh]
      rfl
    | some inst =>
      left
      simp only [phala_verify, hh]
      simp

theorem phala_verify_intel (sha256hex : String → String) (oc : PhalaOracles)
    (si : Option SysInfo)
    (h : (phala_verify sha256hex oc si).model_verified = true) :
    "INTEL_TDX" ∈ (phala_verify sha256hex oc si).hardware_type := by
  rcases phala_verify_cases sha256hex oc si with hm | hf
  · exact hm
  · rw [h] at hf; exact absurd hf (by simp)

set_option maxHeartbeats 1600000 in
theorem redpill_verify_intel (sha256hex : String → String)
    (oc : RedpillOracles) (rd : RawReport)
    (h : (redpill_verify sha256hex oc rd).model_verified = true) :
    "INTEL_TDX" ∈ (redpill_verify sha256hex oc rd).hardware_type := by
  cases hm : pyStr (match pyStr rd.model_id with
                    | some m => some m
                    | none => rd.model) with
  | none =>
    simp only [redpill_verify, hm] at h
    simp at h
  | some mid =>
    cases hf : oc.models.find? (fun m => m.id == some mid) with
    | none =>
      simp only [redpill_verify, hm, hf] at h
      simp at h
    | some mi =>
      cases ht : mi.providers.contains "tinfoil" with
      | true =>
        cases hmap : (tinfoil_mapping.find? (fun p => p.1 == mid)).map (·.2) with
        | none =>
          simp only [redpill_verify, hm, hf, ht, if_pos rfl, hmap] at h
          simp at h
        | some tid =>
          cases htv : tinfoil_verify
              (.dictQ rd.intel_quote (some tid) oc.tinfoil_repo none none)
              oc.tin with
          | error e =>
            simp only [redpill_verify, hm, hf, ht, if_pos rfl, hmap, htv] at h
            simp [redpillExceptResult] at h
          | ok result =>
            have hw := tinfoil_verify_hw _ _ _ htv
            simp only [redpill_verify, hm, hf, ht, if_pos rfl, hmap, htv]
            rw [hw]
            simp
      | false =>
        cases hn : mi.providers.contains "near-ai" with
        | true =>
          cases hmap : (nearai_mapping.find? (fun p => p.1 == mid)).map (·.2) with
          | none =>
            simp only [redpill_verify, hm, hf, ht, hn, Bool.false_eq_true,
              if_false, if_pos rfl, hmap] at h
            simp at h
          | some nid =>
            simp only [redpill_verify, hm, hf, ht, hn, Bool.false_eq_true,
              if_false, if_pos rfl, hmap] at h ⊢
            exact nearai_verify_intel _ _ _ _ _ _ h
        | false =>
          cases hp : (mi.providers.contains "phala" || mi.providers.isEmpty) with
          | true =>
            cases ha : pyStr mi.appid with
            | none =>
              simp only [redpill_verify, hm, hf, ht, hn, hp,
                Bool.false_eq_true, if_false, if_pos rfl, ha] at h
              simp at h
            | some aid =>
              simp only [redpill_verify, hm, hf, ht, hn, hp,
                Bool.false_eq_true, if_false, if_pos rfl, ha] at h
              simp [redpillExceptResult] at h
          | false =>
            simp only [redpill_verify, hm, hf, ht, hn, hp,
              Bool.false_eq_true, if_false] at h

theorem tee_verify_intel (sha256hex : String → String) (oc : SdkOracles)
    (report : AttestationReport) (r : VerificationResult)
    (hok : tee_verify sha256hex oc report = .ok r)
    (h : r.model_verified = true) : "INTEL_TDX" ∈ r.hardware_type := by
  revert hok
  simp only [tee_verify]
  by_cases h₁ : pyLower report.provider = "nearai"
  · simp only [h₁, if_pos rfl]
    cases hraw : report.raw with
    | none =>
      intro hok
      injection hok with h'
      rw [← h'] at h ⊢
      simp at h
    | some raw =>
      intro hok
      injection hok with h'
      rw [← h'] at h ⊢
      exact nearai_verify_intel _ _ _ _ _ _ h
  · simp only [h₁, reduceIte]
    by_cases h₂ : pyLower report.provider = "redpill"
    · simp only [h₂, if_pos rfl]
      cases hraw : report.raw with
      | none =>
        intro hok
        injection hok with h'
        rw [← h'] at h ⊢
        simp at h
      | some raw =>
        intro hok
        injection hok with h'
        rw [← h'] at h ⊢
        exact redpill_verify_intel _ _ _ h
    · simp only [h₂, reduceIte]
      by_cases h₃ : pyLower report.provider = "tinfoil"
      · simp only [h₃, if_pos rfl]
        cases htv : tinfoil_verify
            (match report.raw with
             | some raw =>
               QuoteInput.dictQ (some report.intel_quote) raw.model_id raw.repo
                 report.request_nonce raw.signing_address
             | none => QuoteInput.hexS report.intel_quote) oc.tin with
        | error e => intro hok; cases hok
        | ok ir =>
          intro hok
          injection hok with h'
          rw [← h'] at h ⊢
          exact tee_combine_mem _ _ _ _
            (by rw [tinfoil_verify_hw _ _ _ htv]; simp)
      · simp only [h₃, reduceIte]
        cases hiv : intel_verify
            (match report.raw with
             | some raw =>
               QuoteInput.dictQ (some report.intel_quote) raw.model_id raw.repo
                 report.request_nonce raw.signing_address
             | none => QuoteInput.hexS report.intel_quote)
            oc.intel_dcap oc.intel_ita with
        | error e => intro hok; cases hok
        | ok ir =>
          intro hok
          injection hok with h'
          rw [← h'] at h ⊢
          exact tee_combine_mem _ _ _ _
            (by rw [intel_verify_hw _ _ _ _ hiv]; simp)

/-- C1 (amended): for every result any embedded verifier produces, if
`model_verified` is true then `hardware_type` contains `INTEL_TDX`.
(The original claim's second conjunct — `error` is absent — is refuted
by `TeeVerifier.verify` and `PhalaCloudVerifier.verify`, which keep
`model_verified = true` while recording a GPU-failure error.) -/
theorem C1_model_verified_intel_tdx :
    (∀ (q : QuoteInput) (dcap : Except String DcapOut) (ita : Option JV)
       (r : VerificationResult), intel_verify q dcap ita = .ok r →
       r.model_verified = true → "INTEL_TDX" ∈ r.hardware_type) ∧
    (∀ (q : QuoteInput) (oc : TinOracles) (r : VerificationResult),
       tinfoil_verify q oc = .ok r → r.model_verified = true →
       "INTEL_TDX" ∈ r.hardware_type) ∧
    (∀ (sha256hex : String → String) (oc : PhalaOracles) (si : Option SysInfo),
       (phala_verify sha256hex oc si).model_verified = true →
       "INTEL_TDX" ∈ (phala_verify sha256hex oc si).hardware_type) ∧
    (∀ (sha256hex : String → String) (oc : NearaiOracles) (gw : Option AttData)
       (models : Option (List AttData)) (rn mid : Option String),
       (nearai_verify sha256hex oc gw models rn mid).model_verified = true →
       "INTEL_TDX" ∈
         (nearai_verify sha256hex oc gw models rn mid).hardware_type) ∧
    (∀ (sha256hex : String → String) (oc : RedpillOracles) (rd : RawReport),
       (redpill_verify sha256hex oc rd).model_verified = true →
       "INTEL_TDX" ∈ (redpill_verify sha256hex oc rd).hardware_type) ∧
    (∀ (sha256hex : String → String) (oc : SdkOracles)
       (report : AttestationReport) (r : VerificationResult),
       tee_verify sha256hex oc report = .ok r → r.model_verified = true →
       "INTEL_TDX" ∈ r.hardware_type) :=
  ⟨fun q dcap ita r hok _ => by rw [intel_verify_hw q dcap ita r hok]; simp,
   fun q oc r hok _ => by rw [tinfoil_verify_hw q oc r hok]; simp,
   phala_verify_intel, nearai_verify_intel, redpill_verify_intel,
   tee_verify_intel⟩

/-- Witness for C1's amended statement at a concrete verified result. -/
theorem C1_model_verified_intel_tdx_witness :
    "INTEL_TDX" ∈ (intel_success_post none none none
      { status := "UpToDate" }).hardware_type :=
  C1_model_verified_intel_tdx.1 (.hexS "00") (.ok { status := "UpToDate" })
    none _ rfl rfl

end PAIV
